import Mathlib

/-
Verification of the un-kicker-control link/protocol layer.

The Python modules `motherboard.py` and `nanokicker.py` are shallowly
embedded below.  Byte strings are `List Nat` (each entry one byte),
`struct.pack`/`struct.unpack` become explicit byte arithmetic, the serial
port becomes an explicit state record carrying a script of transport
events, and a Python call that can raise an uncaught exception returns a
`raised` result.  `print` calls have no semantic effect and are dropped.
-/

namespace UnKicker

/-- Little-endian 4-byte encoding of a natural number, as produced by
`struct.pack("<I", n)` (and, for a value carrying an exact binary32
bit pattern, by `struct.pack("<f", f)`). -/
def toLEBytes (n : Nat) : List Nat :=
  [n % 256, n / 256 % 256, n / 65536 % 256, n / 16777216 % 256]

/-- Little-endian 4-byte decoding, as in `struct.unpack("<I", bs)`. -/
def fromLEBytes (bs : List Nat) : Nat :=
  match bs with
  | [b0, b1, b2, b3] => b0 + 256 * b1 + 65536 * b2 + 16777216 * b3
  | _ => 0

/-- Big-endian 4-byte encoding of a natural number, the `I` field of
`struct.pack(">BBI", ...)`. -/
def toBEBytes (n : Nat) : List Nat :=
  [n / 16777216 % 256, n / 65536 % 256, n / 256 % 256, n % 256]

/-- Big-endian 4-byte decoding, as in `struct.unpack(">I", bs)`. -/
def fromBEBytes (bs : List Nat) : Nat :=
  match bs with
  | [b0, b1, b2, b3] => 16777216 * b0 + 65536 * b1 + 256 * b2 + b3
  | _ => 0

/-- Whether a byte is a UTF-8 continuation byte (0x80-0xBF). -/
def isCont (b : Nat) : Bool :=
  128 ≤ b && b ≤ 191

/-- Strict UTF-8 validity of a byte sequence, matching what Python's
`bytes.decode("utf-8")` accepts (surrogates, overlong forms and
code points above U+10FFFF are rejected).  `send_command` calls
`decode` on short binary responses and on diagnostic lines, and an
invalid sequence raises `UnicodeDecodeError` there. -/
def isValidUtf8 : List Nat → Bool
  | [] => true
  | b :: rest =>
    if b ≤ 127 then isValidUtf8 rest
    else if 194 ≤ b && b ≤ 223 then
      match rest with
      | c1 :: r => isCont c1 && isValidUtf8 r
      | [] => false
    else if b = 224 then
      match rest with
      | c1 :: c2 :: r => (160 ≤ c1 && c1 ≤ 191) && isCont c2 && isValidUtf8 r
      | _ => false
    else if 225 ≤ b && b ≤ 236 then
      match rest with
      | c1 :: c2 :: r => isCont c1 && isCont c2 && isValidUtf8 r
      | _ => false
    else if b = 237 then
      match rest with
      | c1 :: c2 :: r => (128 ≤ c1 && c1 ≤ 159) && isCont c2 && isValidUtf8 r
      | _ => false
    else if 238 ≤ b && b ≤ 239 then
      match rest with
      | c1 :: c2 :: r => isCont c1 && isCont c2 && isValidUtf8 r
      | _ => false
    else if b = 240 then
      match rest with
      | c1 :: c2 :: c3 :: r =>
        (144 ≤ c1 && c1 ≤ 191) && isCont c2 && isCont c3 && isValidUtf8 r
      | _ => false
    else if 241 ≤ b && b ≤ 243 then
      match rest with
      | c1 :: c2 :: c3 :: r => isCont c1 && isCont c2 && isCont c3 && isValidUtf8 r
      | _ => false
    else if b = 244 then
      match rest with
      | c1 :: c2 :: c3 :: r =>
        (128 ≤ c1 && c1 ≤ 143) && isCont c2 && isCont c3 && isValidUtf8 r
      | _ => false
    else false

/-- One transport-level event, scripting what the serial port does during
one `send_command` transaction: `ok bs` means the write succeeds and the
subsequent read sees exactly the bytes `bs` (empty on timeout); the two
failure events model a `serial.SerialException` raised during the write
respectively during the read (after the frame went out). -/
inductive TEvent where
  | ok (bs : List Nat)
  | failAtWrite
  | failAtRead
deriving DecidableEq, Repr

/-- A Python float that carries an exact IEEE-754 binary32 value,
represented by its 32-bit pattern.  `struct.pack("<f", ·)` emits exactly
the four little-endian bytes of this pattern, and `struct.unpack("<f", ·)`
reads them back, so the embedding of the float helpers below is pure byte
shuffling on the pattern. -/
structure F32 where
  bits : Nat
deriving DecidableEq, Repr

/-- The cached startup-enabled field is heterogeneous in Python: the
setter stores the `bool` argument while the getter stores the raw
response integer. -/
inductive StartupVal where
  | fromBool (b : Bool)
  | fromInt (n : Nat)
deriving DecidableEq, Repr

/-- Cached per-device state of `nanokicker.NanoKicker`; every parameter
field starts out `none` (Python `None`, "unknown"). -/
structure NanoKicker where
  device_id : Nat
  mode : Option Nat := none
  frequency : Option Nat := none
  amplitude : Option F32 := none
  startup_enabled : Option StartupVal := none
  vin : Option F32 := none
  vout : Option F32 := none
  pot_range : Option F32 := none
  r_g_trim : Option F32 := none
  r_f_trim : Option F32 := none
  wiper : Option Nat := none
deriving DecidableEq, Repr

/-- State of `motherboard.Motherboard` together with the observable
behaviour of its serial transport.  `serial = none` models
`self.serial is None`; `serial = some b` models a port object with
`is_open = b`.  `script` is the pending transport events, `written` the
frames written so far, `closeCount` the number of `serial.close()` calls,
`cbCount` the number of `disconnect_callback` invocations (`hasCb` says
whether a callback was registered), and `sleeps` the number of
`time.sleep` pacing delays taken during scans. -/
structure Motherboard where
  serial : Option Bool
  script : List TEvent
  written : List (List Nat)
  closeCount : Nat
  cbCount : Nat
  hasCb : Bool
  sleeps : Nat
  nanokickers : List (Nat × NanoKicker)
deriving DecidableEq, Repr

/-- Result of a call to `Motherboard.send_command`: a decoded 4-byte
integer, Python `None`, or an uncaught exception (`struct.error` from a
bad pack, or `UnicodeDecodeError` from `decode`). -/
inductive SendResult where
  | val (n : Nat)
  | pyNone
  | raised
deriving DecidableEq, Repr

/-- Embedding of `struct.pack(">BBI", device_id, action, value)`:
6-byte frame `[device_id][action][value big-endian]`, or `none` when a
field is out of range and `struct.error` is raised. -/
def packBBI (device_id action value : Nat) : Option (List Nat) :=
  if device_id < 256 && action < 256 && value < 4294967296 then
    some ([device_id, action] ++ toBEBytes value)
  else none

/-- Embedding of `Motherboard.disconnect`: close the serial port if it is
open and drop the reference; otherwise do nothing.  The registry
`nanokickers` is not touched. -/
def Motherboard.disconnect (mb : Motherboard) : Motherboard :=
  match mb.serial with
  | some true => { mb with serial := none, closeCount := mb.closeCount + 1 }
  | _ => mb

/-- Embedding of `Motherboard.send_command`.  Not connected: return
`None` without touching the transport.  Otherwise pack the frame
(`struct.error` propagates before any write), write it, and either read
4 bytes (binary response: exactly 4 bytes decode big-endian; fewer are
`decode`d as text and yield `None`, raising on invalid UTF-8) or read a
diagnostic line (`decode`d likewise, always yielding `None`).  A
`SerialException` during write or read is caught: `disconnect()` runs and
the registered disconnect callback fires, then `None` is returned. -/
def Motherboard.send_command (mb : Motherboard) (device_id action value : Nat)
    (read_response : Bool) : Motherboard × SendResult :=
  match mb.serial with
  | some true =>
    match packBBI device_id action value with
    | none => (mb, .raised)
    | some frame =>
      let rest := mb.script.tail
      match mb.script.headD (TEvent.ok []) with
      | .failAtWrite =>
        ({ mb with
            script := rest,
            serial := none,
            closeCount := mb.closeCount + 1,
            cbCount := if mb.hasCb then mb.cbCount + 1 else mb.cbCount },
         .pyNone)
      | .failAtRead =>
        ({ mb with
            script := rest,
            written := mb.written ++ [frame],
            serial := none,
            closeCount := mb.closeCount + 1,
            cbCount := if mb.hasCb then mb.cbCount + 1 else mb.cbCount },
         .pyNone)
      | .ok bs =>
        let mbW := { mb with script := rest, written := mb.written ++ [frame] }
        if read_response then
          let rb := bs.take 4
          if rb.length = 4 then (mbW, .val (fromBEBytes rb))
          else if isValidUtf8 rb then (mbW, .pyNone)
          else (mbW, .raised)
        else
          if isValidUtf8 bs then (mbW, .pyNone) else (mbW, .raised)
  | _ => (mb, .pyNone)

/-- Embedding of `NanoKicker.__init__`: a Device Handle is constructed
only for `device_id` in 0..19; otherwise `ValueError` is raised
(modelled as `none`).  All parameter caches start unknown. -/
def NanoKicker.init (device_id : Nat) : Option NanoKicker :=
  if device_id < 20 then some { device_id := device_id } else none

/-- Embedding of `NanoKicker._float_to_int`:
`struct.unpack("<I", struct.pack("<f", value))[0]`, i.e. the little-endian
bytes of the binary32 pattern read back as a little-endian unsigned int. -/
def NanoKicker.float_to_int (f : F32) : Nat :=
  fromLEBytes (toLEBytes f.bits)

/-- Embedding of `NanoKicker._int_to_float`:
`struct.unpack("<f", struct.pack("<I", value))[0]`. -/
def NanoKicker.int_to_float (n : Nat) : F32 :=
  ⟨fromLEBytes (toLEBytes n)⟩

/-- Result of one Python method call: a returned value, or an uncaught
exception escaping the call. -/
inductive PyResult (α : Type) where
  | ret (a : α)
  | raised
deriving DecidableEq, Repr

/-- Embedding of `NanoKicker.set_mode`: cache first, then send action 1. -/
def NanoKicker.set_mode (nk : NanoKicker) (mb : Motherboard) (mode : Nat) :
    NanoKicker × Motherboard × SendResult :=
  let nk' := { nk with mode := some mode }
  let (mb', r) := mb.send_command nk.device_id 1 mode false
  (nk', mb', r)

/-- Embedding of `NanoKicker.set_frequency`: cache, then send action 2. -/
def NanoKicker.set_frequency (nk : NanoKicker) (mb : Motherboard) (frequency : Nat) :
    NanoKicker × Motherboard × SendResult :=
  let nk' := { nk with frequency := some frequency }
  let (mb', r) := mb.send_command nk.device_id 2 frequency false
  (nk', mb', r)

/-- Embedding of `NanoKicker.set_amplitude`: cache, then send action 3
with the float's bit pattern as the value field. -/
def NanoKicker.set_amplitude (nk : NanoKicker) (mb : Motherboard) (amplitude : F32) :
    NanoKicker × Motherboard × SendResult :=
  let nk' := { nk with amplitude := some amplitude }
  let (mb', r) := mb.send_command nk.device_id 3 (NanoKicker.float_to_int amplitude) false
  (nk', mb', r)

/-- Embedding of `NanoKicker.set_wiper`: cache, then send action 4. -/
def NanoKicker.set_wiper (nk : NanoKicker) (mb : Motherboard) (wiper : Nat) :
    NanoKicker × Motherboard × SendResult :=
  let nk' := { nk with wiper := some wiper }
  let (mb', r) := mb.send_command nk.device_id 4 wiper false
  (nk', mb', r)

/-- Embedding of `NanoKicker.set_startup_enabled`: cache the boolean,
then send action 11 with `int(enabled)`. -/
def NanoKicker.set_startup_enabled (nk : NanoKicker) (mb : Motherboard) (enabled : Bool) :
    NanoKicker × Motherboard × SendResult :=
  let nk' := { nk with startup_enabled := some (StartupVal.fromBool enabled) }
  let (mb', r) := mb.send_command nk.device_id 11 (if enabled then 1 else 0) false
  (nk', mb', r)

/-- Embedding of `NanoKicker.set_vin` (action 12, float encoded). -/
def NanoKicker.set_vin (nk : NanoKicker) (mb : Motherboard) (vin : F32) :
    NanoKicker × Motherboard × SendResult :=
  let nk' := { nk with vin := some vin }
  let (mb', r) := mb.send_command nk.device_id 12 (NanoKicker.float_to_int vin) false
  (nk', mb', r)

/-- Embedding of `NanoKicker.set_vout` (action 13, float encoded). -/
def NanoKicker.set_vout (nk : NanoKicker) (mb : Motherboard) (vout : F32) :
    NanoKicker × Motherboard × SendResult :=
  let nk' := { nk with vout := some vout }
  let (mb', r) := mb.send_command nk.device_id 13 (NanoKicker.float_to_int vout) false
  (nk', mb', r)

/-- Embedding of `NanoKicker.set_pot_range` (action 14, float encoded). -/
def NanoKicker.set_pot_range (nk : NanoKicker) (mb : Motherboard) (pot_range : F32) :
    NanoKicker × Motherboard × SendResult :=
  let nk' := { nk with pot_range := some pot_range }
  let (mb', r) := mb.send_command nk.device_id 14 (NanoKicker.float_to_int pot_range) false
  (nk', mb', r)

/-- Embedding of `NanoKicker.set_r_g_trim` (action 15, float encoded). -/
def NanoKicker.set_r_g_trim (nk : NanoKicker) (mb : Motherboard) (trim : F32) :
    NanoKicker × Motherboard × SendResult :=
  let nk' := { nk with r_g_trim := some trim }
  let (mb', r) := mb.send_command nk.device_id 15 (NanoKicker.float_to_int trim) false
  (nk', mb', r)

/-- Embedding of `NanoKicker.set_r_f_trim` (action 16, float encoded). -/
def NanoKicker.set_r_f_trim (nk : NanoKicker) (mb : Motherboard) (trim : F32) :
    NanoKicker × Motherboard × SendResult :=
  let nk' := { nk with r_f_trim := some trim }
  let (mb', r) := mb.send_command nk.device_id 16 (NanoKicker.float_to_int trim) false
  (nk', mb', r)

/-- Embedding of `NanoKicker.get_mode`: action 21; the cache is assigned
unconditionally from the transaction result (`None` overwrites it on a
failed read), and the updated cache is returned. -/
def NanoKicker.get_mode (nk : NanoKicker) (mb : Motherboard) :
    NanoKicker × Motherboard × PyResult (Option Nat) :=
  match mb.send_command nk.device_id 21 0 true with
  | (mb', .val n) => ({ nk with mode := some n }, mb', .ret (some n))
  | (mb', .pyNone) => ({ nk with mode := none }, mb', .ret none)
  | (mb', .raised) => (nk, mb', .raised)

/-- Embedding of `NanoKicker.get_frequency`: action 22; the cache is
updated only when a value came back, and the (possibly stale) cache is
returned. -/
def NanoKicker.get_frequency (nk : NanoKicker) (mb : Motherboard) :
    NanoKicker × Motherboard × PyResult (Option Nat) :=
  match mb.send_command nk.device_id 22 0 true with
  | (mb', .val n) => ({ nk with frequency := some n }, mb', .ret (some n))
  | (mb', .pyNone) => (nk, mb', .ret nk.frequency)
  | (mb', .raised) => (nk, mb', .raised)

/-- Embedding of `NanoKicker.get_amplitude`: action 23; a returned value
is bit-reinterpreted to float before caching. -/
def NanoKicker.get_amplitude (nk : NanoKicker) (mb : Motherboard) :
    NanoKicker × Motherboard × PyResult (Option F32) :=
  match mb.send_command nk.device_id 23 0 true with
  | (mb', .val n) =>
    ({ nk with amplitude := some (NanoKicker.int_to_float n) }, mb',
     .ret (some (NanoKicker.int_to_float n)))
  | (mb', .pyNone) => (nk, mb', .ret nk.amplitude)
  | (mb', .raised) => (nk, mb', .raised)

/-- Embedding of `NanoKicker.get_wiper`: action 24, guarded cache update. -/
def NanoKicker.get_wiper (nk : NanoKicker) (mb : Motherboard) :
    NanoKicker × Motherboard × PyResult (Option Nat) :=
  match mb.send_command nk.device_id 24 0 true with
  | (mb', .val n) => ({ nk with wiper := some n }, mb', .ret (some n))
  | (mb', .pyNone) => (nk, mb', .ret nk.wiper)
  | (mb', .raised) => (nk, mb', .raised)

/-- Embedding of `NanoKicker.get_startup_enabled`: action 31; like
`get_mode` the cache is assigned unconditionally from the result. -/
def NanoKicker.get_startup_enabled (nk : NanoKicker) (mb : Motherboard) :
    NanoKicker × Motherboard × PyResult (Option StartupVal) :=
  match mb.send_command nk.device_id 31 0 true with
  | (mb', .val n) =>
    ({ nk with startup_enabled := some (StartupVal.fromInt n) }, mb',
     .ret (some (StartupVal.fromInt n)))
  | (mb', .pyNone) => ({ nk with startup_enabled := none }, mb', .ret none)
  | (mb', .raised) => (nk, mb', .raised)

/-- Embedding of `NanoKicker.get_vin`: action 32, guarded float cache. -/
def NanoKicker.get_vin (nk : NanoKicker) (mb : Motherboard) :
    NanoKicker × Motherboard × PyResult (Option F32) :=
  match mb.send_command nk.device_id 32 0 true with
  | (mb', .val n) =>
    ({ nk with vin := some (NanoKicker.int_to_float n) }, mb',
     .ret (some (NanoKicker.int_to_float n)))
  | (mb', .pyNone) => (nk, mb', .ret nk.vin)
  | (mb', .raised) => (nk, mb', .raised)

/-- Embedding of `NanoKicker.get_vout`: action 33, guarded float cache. -/
def NanoKicker.get_vout (nk : NanoKicker) (mb : Motherboard) :
    NanoKicker × Motherboard × PyResult (Option F32) :=
  match mb.send_command nk.device_id 33 0 true with
  | (mb', .val n) =>
    ({ nk with vout := some (NanoKicker.int_to_float n) }, mb',
     .ret (some (NanoKicker.int_to_float n)))
  | (mb', .pyNone) => (nk, mb', .ret nk.vout)
  | (mb', .raised) => (nk, mb', .raised)

/-- Embedding of `NanoKicker.get_pot_range`: action 34, guarded float
cache. -/
def NanoKicker.get_pot_range (nk : NanoKicker) (mb : Motherboard) :
    NanoKicker × Motherboard × PyResult (Option F32) :=
  match mb.send_command nk.device_id 34 0 true with
  | (mb', .val n) =>
    ({ nk with pot_range := some (NanoKicker.int_to_float n) }, mb',
     .ret (some (NanoKicker.int_to_float n)))
  | (mb', .pyNone) => (nk, mb', .ret nk.pot_range)
  | (mb', .raised) => (nk, mb', .raised)

/-- Embedding of `NanoKicker.get_r_g_trim`: action 35, guarded float
cache. -/
def NanoKicker.get_r_g_trim (nk : NanoKicker) (mb : Motherboard) :
    NanoKicker × Motherboard × PyResult (Option F32) :=
  match mb.send_command nk.device_id 35 0 true with
  | (mb', .val n) =>
    ({ nk with r_g_trim := some (NanoKicker.int_to_float n) }, mb',
     .ret (some (NanoKicker.int_to_float n)))
  | (mb', .pyNone) => (nk, mb', .ret nk.r_g_trim)
  | (mb', .raised) => (nk, mb', .raised)

/-- Embedding of `NanoKicker.get_r_f_trim`: action 36, guarded float
cache. -/
def NanoKicker.get_r_f_trim (nk : NanoKicker) (mb : Motherboard) :
    NanoKicker × Motherboard × PyResult (Option F32) :=
  match mb.send_command nk.device_id 36 0 true with
  | (mb', .val n) =>
    ({ nk with r_f_trim := some (NanoKicker.int_to_float n) }, mb',
     .ret (some (NanoKicker.int_to_float n)))
  | (mb', .pyNone) => (nk, mb', .ret nk.r_f_trim)
  | (mb', .raised) => (nk, mb', .raised)

/-- Sequencing helper for `read_all_parameters`: run the next getter
unless a previous one raised; an uncaught exception from a getter stops
the remaining calls (the `Bool` flag records "an exception escaped"). -/
def stepRA {α : Type} (s : NanoKicker × Motherboard × Bool)
    (f : NanoKicker → Motherboard → NanoKicker × Motherboard × PyResult α) :
    NanoKicker × Motherboard × Bool :=
  match s with
  | (nk, mb, true) => (nk, mb, true)
  | (nk, mb, false) =>
    match f nk mb with
    | (nk', mb', .raised) => (nk', mb', true)
    | (nk', mb', .ret _) => (nk', mb', false)

/-- Embedding of `NanoKicker.read_all_parameters`: the ten getters in the
source's order — mode, frequency, amplitude, startup-enabled, vin, vout,
pot-range, r_g-trim, r_f-trim, wiper. -/
def NanoKicker.read_all_parameters (nk : NanoKicker) (mb : Motherboard) :
    NanoKicker × Motherboard × Bool :=
  stepRA (stepRA (stepRA (stepRA (stepRA (stepRA (stepRA (stepRA (stepRA (stepRA
    (nk, mb, false)
    NanoKicker.get_mode)
    NanoKicker.get_frequency)
    NanoKicker.get_amplitude)
    NanoKicker.get_startup_enabled)
    NanoKicker.get_vin)
    NanoKicker.get_vout)
    NanoKicker.get_pot_range)
    NanoKicker.get_r_g_trim)
    NanoKicker.get_r_f_trim)
    NanoKicker.get_wiper

/-- Number of addressable device slots (`Motherboard.MAX_DEVICES`). -/
def MAX_DEVICES : Nat := 20

/-- The only sentinel `scan_for_nanokickers` actually tests against
(`ERROR_RESPONSE_MINUS_2 = 4278190079`; the two neighbouring constants in
the source are defined but never used). -/
def ERROR_RESPONSE_MINUS_2 : Nat := 4278190079

/-- One pass of the scan loop of `Motherboard.scan_for_nanokickers`,
probing slots `i, i+1, ...` for `fuel` iterations: probe with a
`get_mode` read (action 21); a present value different from the sentinel
registers a fresh handle seeded with that mode; each iteration ends with
a pacing sleep.  An uncaught exception from `send_command` aborts the
loop (flag `true`). -/
def scanLoop (mb : Motherboard) (i fuel : Nat) : Motherboard × Bool :=
  match fuel with
  | 0 => (mb, false)
  | fuel' + 1 =>
    match mb.send_command i 21 0 true with
    | (mb', .raised) => (mb', true)
    | (mb', .val n) =>
      let mb2 :=
        if n = ERROR_RESPONSE_MINUS_2 then mb'
        else
          { mb' with
            nanokickers := mb'.nanokickers ++ [(i, { device_id := i, mode := some n })] }
      scanLoop { mb2 with sleeps := mb2.sleeps + 1 } (i + 1) fuel'
    | (mb', .pyNone) => scanLoop { mb' with sleeps := mb'.sleeps + 1 } (i + 1) fuel'

/-- Embedding of `Motherboard.scan_for_nanokickers`: while disconnected
it returns `None` immediately (no probe, no sleep, registry untouched);
otherwise the registry is cleared and all 20 slots are probed, the dict
of found kickers being returned. -/
def Motherboard.scan_for_nanokickers (mb : Motherboard) :
    Motherboard × PyResult (Option (List (Nat × NanoKicker))) :=
  match mb.serial with
  | some true =>
    let mb1 := { mb with nanokickers := [] }
    match scanLoop mb1 0 MAX_DEVICES with
    | (mb2, true) => (mb2, .raised)
    | (mb2, false) => (mb2, .ret (some mb2.nanokickers))
  | _ => (mb, .ret none)

/-- The 6-byte wire frame `[device_id][action][value big-endian]`. -/
def frame6 (d a v : Nat) : List Nat :=
  [d, a] ++ toBEBytes v

/-- Value decoded from one scripted binary response: `some` of the
big-endian decoding of the first four bytes when at least four bytes
arrived, `none` on a short read. -/
def respVal (bs : List Nat) : Option Nat :=
  if (bs.take 4).length = 4 then some (fromBEBytes (bs.take 4)) else none

/-- A response byte string is well formed for a binary-response
transaction when it is either a full 4-byte value or short text that
decodes as UTF-8 (per the data model, a response is a 4-byte value or a
diagnostic text line), so that `send_command` does not raise while
decoding it. -/
def wfResp (bs : List Nat) : Prop :=
  (bs.take 4).length = 4 ∨ isValidUtf8 (bs.take 4) = true

instance (bs : List Nat) : Decidable (wfResp bs) := by
  unfold wfResp; infer_instance

/-- State of the motherboard after one completed transaction: the frame
went out and one transport event was consumed. -/
def afterTx (mb : Motherboard) (d a v : Nat) (rest : List TEvent) : Motherboard :=
  { mb with
    script := rest,
    written := mb.written ++ [frame6 d a v] }

/-- Guarded cache update: a fresh response value (pushed through `f`)
replaces the cache, a missing one keeps it. -/
def cacheUpd {α : Type} (resp : Option Nat) (f : Nat → α) (old : Option α) : Option α :=
  match resp with
  | some n => some (f n)
  | none => old

theorem send_command_read_eq (mb : Motherboard) (d a : Nat) (bs : List Nat)
    (rest : List TEvent) (hs : mb.serial = some true)
    (hscript : mb.script = TEvent.ok bs :: rest)
    (hd : d < 256) (ha : a < 256) (hwf : wfResp bs) :
    mb.send_command d a 0 true =
      (afterTx mb d a 0 rest,
       match respVal bs with
       | some n => SendResult.val n
       | none => SendResult.pyNone) := by
  obtain ⟨s, sc, w, cc, cb, hc, sl, nks⟩ := mb
  replace hs : s = some true := hs
  replace hscript : sc = TEvent.ok bs :: rest := hscript
  subst hs; subst hscript
  have hlen : (bs.take 4).length = min 4 bs.length := List.length_take 4 bs
  by_cases h4 : (bs.take 4).length = 4
  · have h4' : 4 ≤ bs.length := by omega
    simp [Motherboard.send_command, packBBI, hd, ha, afterTx, frame6, respVal, h4, h4']
  · have h4' : ¬ 4 ≤ bs.length := by omega
    rcases hwf with h | h
    · exact absurd h h4
    · simp [Motherboard.send_command, packBBI, hd, ha, afterTx, frame6, respVal,
        h4, h4', h]

theorem send_command_write_eq (mb : Motherboard) (d a v : Nat) (bs : List Nat)
    (rest : List TEvent) (hs : mb.serial = some true)
    (hscript : mb.script = TEvent.ok bs :: rest)
    (hd : d < 256) (ha : a < 256) (hv : v < 4294967296)
    (hutf : isValidUtf8 bs = true) :
    mb.send_command d a v false = (afterTx mb d a v rest, SendResult.pyNone) := by
  obtain ⟨s, sc, w, cc, cb, hc, sl, nks⟩ := mb
  replace hs : s = some true := hs
  replace hscript : sc = TEvent.ok bs :: rest := hscript
  subst hs; subst hscript
  simp [Motherboard.send_command, packBBI, hd, ha, hv, afterTx, frame6, hutf]

theorem get_mode_eq (nk : NanoKicker) (mb : Motherboard) (bs : List Nat)
    (rest : List TEvent) (hs : mb.serial = some true)
    (hscript : mb.script = TEvent.ok bs :: rest)
    (hd : nk.device_id < 256) (hwf : wfResp bs) :
    nk.get_mode mb =
      ({ nk with mode := respVal bs }, afterTx mb nk.device_id 21 0 rest,
       PyResult.ret (respVal bs)) := by
  unfold NanoKicker.get_mode
  rw [send_command_read_eq mb nk.device_id 21 bs rest hs hscript hd (by omega) hwf]
  rcases h : respVal bs with _ | n <;> simp [h]

theorem get_frequency_eq (nk : NanoKicker) (mb : Motherboard) (bs : List Nat)
    (rest : List TEvent) (hs : mb.serial = some true)
    (hscript : mb.script = TEvent.ok bs :: rest)
    (hd : nk.device_id < 256) (hwf : wfResp bs) :
    nk.get_frequency mb =
      ({ nk with frequency := cacheUpd (respVal bs) id nk.frequency },
       afterTx mb nk.device_id 22 0 rest,
       PyResult.ret (cacheUpd (respVal bs) id nk.frequency)) := by
  unfold NanoKicker.get_frequency
  rw [send_command_read_eq mb nk.device_id 22 bs rest hs hscript hd (by omega) hwf]
  rcases h : respVal bs with _ | n <;> simp [h, cacheUpd]

theorem get_amplitude_eq (nk : NanoKicker) (mb : Motherboard) (bs : List Nat)
    (rest : List TEvent) (hs : mb.serial = some true)
    (hscript : mb.script = TEvent.ok bs :: rest)
    (hd : nk.device_id < 256) (hwf : wfResp bs) :
    nk.get_amplitude mb =
      ({ nk with amplitude := cacheUpd (respVal bs) NanoKicker.int_to_float nk.amplitude },
       afterTx mb nk.device_id 23 0 rest,
       PyResult.ret (cacheUpd (respVal bs) NanoKicker.int_to_float nk.amplitude)) := by
  unfold NanoKicker.get_amplitude
  rw [send_command_read_eq mb nk.device_id 23 bs rest hs hscript hd (by omega) hwf]
  rcases h : respVal bs with _ | n <;> simp [h, cacheUpd]

theorem get_wiper_eq (nk : NanoKicker) (mb : Motherboard) (bs : List Nat)
    (rest : List TEvent) (hs : mb.serial = some true)
    (hscript : mb.script = TEvent.ok bs :: rest)
    (hd : nk.device_id < 256) (hwf : wfResp bs) :
    nk.get_wiper mb =
      ({ nk with wiper := cacheUpd (respVal bs) id nk.wiper },
       afterTx mb nk.device_id 24 0 rest,
       PyResult.ret (cacheUpd (respVal bs) id nk.wiper)) := by
  unfold NanoKicker.get_wiper
  rw [send_command_read_eq mb nk.device_id 24 bs rest hs hscript hd (by omega) hwf]
  rcases h : respVal bs with _ | n <;> simp [h, cacheUpd]

theorem get_startup_enabled_eq (nk : NanoKicker) (mb : Motherboard) (bs : List Nat)
    (rest : List TEvent) (hs : mb.serial = some true)
    (hscript : mb.script = TEvent.ok bs :: rest)
    (hd : nk.device_id < 256) (hwf : wfResp bs) :
    nk.get_startup_enabled mb =
      ({ nk with startup_enabled := (respVal bs).map StartupVal.fromInt },
       afterTx mb nk.device_id 31 0 rest,
       PyResult.ret ((respVal bs).map StartupVal.fromInt)) := by
  unfold NanoKicker.get_startup_enabled
  rw [send_command_read_eq mb nk.device_id 31 bs rest hs hscript hd (by omega) hwf]
  rcases h : respVal bs with _ | n <;> simp [h]

theorem get_vin_eq (nk : NanoKicker) (mb : Motherboard) (bs : List Nat)
    (rest : List TEvent) (hs : mb.serial = some true)
    (hscript : mb.script = TEvent.ok bs :: rest)
    (hd : nk.device_id < 256) (hwf : wfResp bs) :
    nk.get_vin mb =
      ({ nk with vin := cacheUpd (respVal bs) NanoKicker.int_to_float nk.vin },
       afterTx mb nk.device_id 32 0 rest,
       PyResult.ret (cacheUpd (respVal bs) NanoKicker.int_to_float nk.vin)) := by
  unfold NanoKicker.get_vin
  rw [send_command_read_eq mb nk.device_id 32 bs rest hs hscript hd (by omega) hwf]
  rcases h : respVal bs with _ | n <;> simp [h, cacheUpd]

theorem get_vout_eq (nk : NanoKicker) (mb : Motherboard) (bs : List Nat)
    (rest : List TEvent) (hs : mb.serial = some true)
    (hscript : mb.script = TEvent.ok bs :: rest)
    (hd : nk.device_id < 256) (hwf : wfResp bs) :
    nk.get_vout mb =
      ({ nk with vout := cacheUpd (respVal bs) NanoKicker.int_to_float nk.vout },
       afterTx mb nk.device_id 33 0 rest,
       PyResult.ret (cacheUpd (respVal bs) NanoKicker.int_to_float nk.vout)) := by
  unfold NanoKicker.get_vout
  rw [send_command_read_eq mb nk.device_id 33 bs rest hs hscript hd (by omega) hwf]
  rcases h : respVal bs with _ | n <;> simp [h, cacheUpd]

theorem get_pot_range_eq (nk : NanoKicker) (mb : Motherboard) (bs : List Nat)
    (rest : List TEvent) (hs : mb.serial = some true)
    (hscript : mb.script = TEvent.ok bs :: rest)
    (hd : nk.device_id < 256) (hwf : wfResp bs) :
    nk.get_pot_range mb =
      ({ nk with pot_range := cacheUpd (respVal bs) NanoKicker.int_to_float nk.pot_range },
       afterTx mb nk.device_id 34 0 rest,
       PyResult.ret (cacheUpd (respVal bs) NanoKicker.int_to_float nk.pot_range)) := by
  unfold NanoKicker.get_pot_range
  rw [send_command_read_eq mb nk.device_id 34 bs rest hs hscript hd (by omega) hwf]
  rcases h : respVal bs with _ | n <;> simp [h, cacheUpd]

theorem get_r_g_trim_eq (nk : NanoKicker) (mb : Motherboard) (bs : List Nat)
    (rest : List TEvent) (hs : mb.serial = some true)
    (hscript : mb.script = TEvent.ok bs :: rest)
    (hd : nk.device_id < 256) (hwf : wfResp bs) :
    nk.get_r_g_trim mb =
      ({ nk with r_g_trim := cacheUpd (respVal bs) NanoKicker.int_to_float nk.r_g_trim },
       afterTx mb nk.device_id 35 0 rest,
       PyResult.ret (cacheUpd (respVal bs) NanoKicker.int_to_float nk.r_g_trim)) := by
  unfold NanoKicker.get_r_g_trim
  rw [send_command_read_eq mb nk.device_id 35 bs rest hs hscript hd (by omega) hwf]
  rcases h : respVal bs with _ | n <;> simp [h, cacheUpd]

theorem get_r_f_trim_eq (nk : NanoKicker) (mb : Motherboard) (bs : List Nat)
    (rest : List TEvent) (hs : mb.serial = some true)
    (hscript : mb.script = TEvent.ok bs :: rest)
    (hd : nk.device_id < 256) (hwf : wfResp bs) :
    nk.get_r_f_trim mb =
      ({ nk with r_f_trim := cacheUpd (respVal bs) NanoKicker.int_to_float nk.r_f_trim },
       afterTx mb nk.device_id 36 0 rest,
       PyResult.ret (cacheUpd (respVal bs) NanoKicker.int_to_float nk.r_f_trim)) := by
  unfold NanoKicker.get_r_f_trim
  rw [send_command_read_eq mb nk.device_id 36 bs rest hs hscript hd (by omega) hwf]
  rcases h : respVal bs with _ | n <;> simp [h, cacheUpd]

theorem send_command_not_connected (mb : Motherboard) (d a v : Nat) (rr : Bool)
    (hs : mb.serial ≠ some true) :
    mb.send_command d a v rr = (mb, SendResult.pyNone) := by
  unfold Motherboard.send_command
  rcases h : mb.serial with _ | b
  · rfl
  · cases b
    · rfl
    · exact absurd h hs

theorem send_command_read_raised (mb : Motherboard) (d a : Nat) (bs : List Nat)
    (rest : List TEvent) (hs : mb.serial = some true)
    (hscript : mb.script = TEvent.ok bs :: rest)
    (hd : d < 256) (ha : a < 256)
    (hshort : (bs.take 4).length ≠ 4) (hutf : isValidUtf8 (bs.take 4) = false) :
    mb.send_command d a 0 true = (afterTx mb d a 0 rest, SendResult.raised) := by
  obtain ⟨s, sc, w, cc, cb, hc, sl, nks⟩ := mb
  replace hs : s = some true := hs
  replace hscript : sc = TEvent.ok bs :: rest := hscript
  subst hs; subst hscript
  have hlen : (bs.take 4).length = min 4 bs.length := List.length_take 4 bs
  have h4' : ¬ 4 ≤ bs.length := by omega
  simp [Motherboard.send_command, packBBI, hd, ha, afterTx, frame6, hshort, h4', hutf]

theorem send_command_write_raised (mb : Motherboard) (d a v : Nat) (bs : List Nat)
    (rest : List TEvent) (hs : mb.serial = some true)
    (hscript : mb.script = TEvent.ok bs :: rest)
    (hd : d < 256) (ha : a < 256) (hv : v < 4294967296)
    (hutf : isValidUtf8 bs = false) :
    mb.send_command d a v false = (afterTx mb d a v rest, SendResult.raised) := by
  obtain ⟨s, sc, w, cc, cb, hc, sl, nks⟩ := mb
  replace hs : s = some true := hs
  replace hscript : sc = TEvent.ok bs :: rest := hscript
  subst hs; subst hscript
  simp [Motherboard.send_command, packBBI, hd, ha, hv, afterTx, frame6, hutf]

theorem fromLE_toLE (n : Nat) : fromLEBytes (toLEBytes n) = n % 4294967296 := by
  simp only [toLEBytes, fromLEBytes]
  omega

theorem fromBE_toBE (n : Nat) : fromBEBytes (toBEBytes n) = n % 4294967296 := by
  simp only [toBEBytes, fromBEBytes]
  omega

theorem float_to_int_eq (f : F32) (hf : f.bits < 4294967296) :
    NanoKicker.float_to_int f = f.bits := by
  simp [NanoKicker.float_to_int, fromLE_toLE, Nat.mod_eq_of_lt hf]

theorem float_to_int_lt (f : F32) : NanoKicker.float_to_int f < 4294967296 := by
  simp only [NanoKicker.float_to_int, fromLE_toLE]
  exact Nat.mod_lt _ (by omega)

theorem respVal_toBEBytes (n : Nat) (hn : n < 4294967296) :
    respVal (toBEBytes n) = some n := by
  simp [respVal, toBEBytes, fromBEBytes]
  omega

/-- Finiteness of a binary32 bit pattern: it fits in 32 bits and its
exponent field (bits 23..30) is not all ones (all-ones encodes
infinities and NaNs). -/
def isFiniteF32 (f : F32) : Prop :=
  f.bits < 4294967296 ∧ f.bits / 8388608 % 256 ≠ 255

instance (f : F32) : Decidable (isFiniteF32 f) := by
  unfold isFiniteF32; infer_instance

/-- Claim C5: for every finite IEEE-754 single-precision float `f`,
`int_to_float(float_to_int(f))` equals `f` bit-exactly — the
little-endian bits-to-unsigned-32-bit reinterpretation and its inverse
compose to the identity on the bit pattern. -/
theorem float_roundtrip (f : F32) (hf : isFiniteF32 f) :
    NanoKicker.int_to_float (NanoKicker.float_to_int f) = f := by
  obtain ⟨b⟩ := f
  obtain ⟨hb, -⟩ := hf
  dsimp only at hb
  simp only [NanoKicker.int_to_float, NanoKicker.float_to_int, fromLE_toLE,
    F32.mk.injEq]
  omega

/-- Witness for C5 at the bit pattern of 2.5f (0x40200000). -/
theorem float_roundtrip_witness :
    isFiniteF32 ⟨1075838976⟩ ∧
      NanoKicker.int_to_float (NanoKicker.float_to_int ⟨1075838976⟩) = ⟨1075838976⟩ :=
  ⟨by decide, float_roundtrip ⟨1075838976⟩ (by decide)⟩

/-- Claim C6: every float-valued setter on a connected Device Handle
emits a command whose 32-bit value field is the little-endian IEEE-754
bit pattern of the argument reinterpreted as an unsigned integer
(`float_to_int a = a.bits`), framed big-endian; in particular
`set_amplitude(2.5)` on device 0 emits `00 03 40 20 00 00` (see the
witness). -/
theorem float_setter_encoding (nk : NanoKicker) (mb : Motherboard) (a : F32)
    (bs : List Nat) (rest : List TEvent) (hs : mb.serial = some true)
    (hscript : mb.script = TEvent.ok bs :: rest)
    (hd : nk.device_id < 256) (hbits : a.bits < 4294967296) :
    NanoKicker.float_to_int a = a.bits ∧
    (nk.set_amplitude mb a).2.1.written = mb.written ++ [frame6 nk.device_id 3 a.bits] ∧
    (nk.set_vin mb a).2.1.written = mb.written ++ [frame6 nk.device_id 12 a.bits] ∧
    (nk.set_vout mb a).2.1.written = mb.written ++ [frame6 nk.device_id 13 a.bits] ∧
    (nk.set_pot_range mb a).2.1.written = mb.written ++ [frame6 nk.device_id 14 a.bits] ∧
    (nk.set_r_g_trim mb a).2.1.written = mb.written ++ [frame6 nk.device_id 15 a.bits] ∧
    (nk.set_r_f_trim mb a).2.1.written = mb.written ++ [frame6 nk.device_id 16 a.bits] := by
  have hfi : NanoKicker.float_to_int a = a.bits := float_to_int_eq a hbits
  have hlt : NanoKicker.float_to_int a < 4294967296 := float_to_int_lt a
  refine ⟨hfi, ?_, ?_, ?_, ?_, ?_, ?_⟩
  · unfold NanoKicker.set_amplitude
    by_cases hu : isValidUtf8 bs = true
    · rw [send_command_write_eq mb nk.device_id 3 (NanoKicker.float_to_int a)
        bs rest hs hscript hd (by omega) hlt hu]
      simp [afterTx, frame6, hfi]
    · rw [send_command_write_raised mb nk.device_id 3 (NanoKicker.float_to_int a)
        bs rest hs hscript hd (by omega) hlt (by simpa using hu)]
      simp [afterTx, frame6, hfi]
  · unfold NanoKicker.set_vin
    by_cases hu : isValidUtf8 bs = true
    · rw [send_command_write_eq mb nk.device_id 12 (NanoKicker.float_to_int a)
        bs rest hs hscript hd (by omega) hlt hu]
      simp [afterTx, frame6, hfi]
    · rw [send_command_write_raised mb nk.device_id 12 (NanoKicker.float_to_int a)
        bs rest hs hscript hd (by omega) hlt (by simpa using hu)]
      simp [afterTx, frame6, hfi]
  · unfold NanoKicker.set_vout
    by_cases hu : isValidUtf8 bs = true
    · rw [send_command_write_eq mb nk.device_id 13 (NanoKicker.float_to_int a)
        bs rest hs hscript hd (by omega) hlt hu]
      simp [afterTx, frame6, hfi]
    · rw [send_command_write_raised mb nk.device_id 13 (NanoKicker.float_to_int a)
        bs rest hs hscript hd (by omega) hlt (by simpa using hu)]
      simp [afterTx, frame6, hfi]
  · unfold NanoKicker.set_pot_range
    by_cases hu : isValidUtf8 bs = true
    · rw [send_command_write_eq mb nk.device_id 14 (NanoKicker.float_to_int a)
        bs rest hs hscript hd (by omega) hlt hu]
      simp [afterTx, frame6, hfi]
    · rw [send_command_write_raised mb nk.device_id 14 (NanoKicker.float_to_int a)
        bs rest hs hscript hd (by omega) hlt (by simpa using hu)]
      simp [afterTx, frame6, hfi]
  · unfold NanoKicker.set_r_g_trim
    by_cases hu : isValidUtf8 bs = true
    · rw [send_command_write_eq mb nk.device_id 15 (NanoKicker.float_to_int a)
        bs rest hs hscript hd (by omega) hlt hu]
      simp [afterTx, frame6, hfi]
    · rw [send_command_write_raised mb nk.device_id 15 (NanoKicker.float_to_int a)
        bs rest hs hscript hd (by omega) hlt (by simpa using hu)]
      simp [afterTx, frame6, hfi]
  · unfold NanoKicker.set_r_f_trim
    by_cases hu : isValidUtf8 bs = true
    · rw [send_command_write_eq mb nk.device_id 16 (NanoKicker.float_to_int a)
        bs rest hs hscript hd (by omega) hlt hu]
      simp [afterTx, frame6, hfi]
    · rw [send_command_write_raised mb nk.device_id 16 (NanoKicker.float_to_int a)
        bs rest hs hscript hd (by omega) hlt (by simpa using hu)]
      simp [afterTx, frame6, hfi]

/-- Witness for C6: `set_amplitude(2.5)` (bit pattern 0x40200000) on
device 0 over a connected link emits exactly the frame
`00 03 40 20 00 00`. -/
theorem float_setter_encoding_witness :
    ((NanoKicker.set_amplitude ⟨0, none, none, none, none, none, none, none, none, none, none⟩
        ⟨some true, [TEvent.ok []], [], 0, 0, false, 0, []⟩
        ⟨1075838976⟩).2.1.written = [[0, 3, 64, 32, 0, 0]]) ∧
    NanoKicker.float_to_int ⟨1075838976⟩ = 1075838976 := by
  have h := float_setter_encoding
    ⟨0, none, none, none, none, none, none, none, none, none, none⟩
    ⟨some true, [TEvent.ok []], [], 0, 0, false, 0, []⟩
    ⟨1075838976⟩ [] [] rfl rfl (by decide) (by decide)
  refine ⟨?_, h.1⟩
  have h2 := h.2.1
  simpa [frame6, toBEBytes] using h2

theorem send_command_ok_fst (mb : Motherboard) (d a v : Nat) (bs : List Nat)
    (rest : List TEvent) (rr : Bool) (hs : mb.serial = some true)
    (hscript : mb.script = TEvent.ok bs :: rest)
    (hd : d < 256) (ha : a < 256) (hv : v < 4294967296) :
    (mb.send_command d a v rr).1 = afterTx mb d a v rest := by
  obtain ⟨s, sc, w, cc, cb, hc, sl, nks⟩ := mb
  replace hs : s = some true := hs
  replace hscript : sc = TEvent.ok bs :: rest := hscript
  subst hs; subst hscript
  cases rr
  · by_cases hu : isValidUtf8 bs = true <;>
      simp [Motherboard.send_command, packBBI, hd, ha, hv, afterTx, frame6, hu]
  · rcases Nat.lt_or_ge bs.length 4 with h4 | h4
    · have h4' : ¬ 4 ≤ bs.length := by omega
      by_cases hu : isValidUtf8 (bs.take 4) = true <;>
        simp [Motherboard.send_command, packBBI, hd, ha, hv, afterTx, frame6, h4', hu]
    · simp [Motherboard.send_command, packBBI, hd, ha, hv, afterTx, frame6, h4]

/-- Claim C1 (amended): for every device_id and action up to 255 and
every 32-bit value, `send_command` on a connected link writes exactly one
6-byte frame `[device_id][action][value big-endian]` — it performs no
0..19 range check, so ids 20..255 also produce a frame (see the
counterexample); an id of 256 or more fails the struct pack before any
bytes are written; the 0..19 rejection is enforced only at Device Handle
construction (`NanoKicker.__init__`). -/
theorem send_command_framing :
    (∀ (mb : Motherboard) (d a v : Nat) (bs : List Nat) (rest : List TEvent)
      (rr : Bool), mb.serial = some true → mb.script = TEvent.ok bs :: rest →
      d < 256 → a < 256 → v < 4294967296 →
      (mb.send_command d a v rr).1.written = mb.written ++ [frame6 d a v]) ∧
    (∀ (mb : Motherboard) (d a v : Nat) (rr : Bool),
      mb.serial = some true → 256 ≤ d →
      mb.send_command d a v rr = (mb, SendResult.raised)) ∧
    (∀ d : Nat, 20 ≤ d → NanoKicker.init d = none) ∧
    (∀ d : Nat, d < 20 → NanoKicker.init d = some { device_id := d }) := by
  refine ⟨?_, ?_, ?_, ?_⟩
  · intro mb d a v bs rest rr hs hscript hd ha hv
    rw [send_command_ok_fst mb d a v bs rest rr hs hscript hd ha hv]
    simp [afterTx]
  · intro mb d a v rr hs hd
    obtain ⟨s, sc, w, cc, cb, hc, sl, nks⟩ := mb
    replace hs : s = some true := hs
    subst hs
    have hd' : ¬ d < 256 := by omega
    simp [Motherboard.send_command, packBBI, hd']
  · intro d hd
    have hd' : ¬ d < 20 := by omega
    simp [NanoKicker.init, hd']
  · intro d hd
    simp [NanoKicker.init, hd]

/-- Witness for C1 (amended): the spec's end-to-end scenario —
set-frequency (action 2) of 1000 for device 3 on a connected link puts
exactly the bytes `03 02 00 00 03 E8` on the wire. -/
theorem send_command_framing_witness :
    ((⟨some true, [TEvent.ok []], [], 0, 0, false, 0, []⟩ :
        Motherboard).send_command 3 2 1000 false).1.written =
      [[3, 2, 0, 0, 3, 232]] := by
  have h := send_command_framing.1
    ⟨some true, [TEvent.ok []], [], 0, 0, false, 0, []⟩ 3 2 1000 [] [] false
    rfl rfl (by decide) (by decide) (by decide)
  simpa [frame6, toBEBytes] using h

/-- Counterexample to C1 as stated: device_id 20 lies outside 0..19, yet
`send_command` on a connected link is not rejected — it writes the
6-byte frame `14 02 00 00 03 E8`. -/
theorem send_command_no_range_check_cex :
    ((⟨some true, [TEvent.ok []], [], 0, 0, false, 0, []⟩ :
        Motherboard).send_command 20 2 1000 false).1.written =
      [[20, 2, 0, 0, 3, 232]] ∧
    ([[20, 2, 0, 0, 3, 232]] : List (List Nat)) ≠ [] := by
  exact ⟨by decide, by decide⟩

/-- Claim C2 (amended): a binary-response transaction that receives fewer
than 4 bytes returns `None` provided the received bytes decode as UTF-8
text (`decode` raises on other content, see the counterexample); on such
a `None` result the guarded getters (frequency, amplitude, wiper, vin,
vout, pot-range, r_g-trim, r_f-trim) leave their cached field unchanged,
while `get_mode` and `get_startup_enabled` overwrite their cache with
`None`. -/
theorem short_read_behavior (nk : NanoKicker) (mb : Motherboard) (d a : Nat)
    (bs : List Nat) (rest : List TEvent)
    (hs : mb.serial = some true) (hscript : mb.script = TEvent.ok bs :: rest)
    (hd : d < 256) (ha : a < 256) (hdn : nk.device_id < 256)
    (hshort : (bs.take 4).length ≠ 4) :
    (isValidUtf8 (bs.take 4) = true →
      (mb.send_command d a 0 true).2 = SendResult.pyNone) ∧
    (isValidUtf8 (bs.take 4) = false →
      (mb.send_command d a 0 true).2 = SendResult.raised) ∧
    (isValidUtf8 (bs.take 4) = true →
      (nk.get_frequency mb).1 = nk ∧ (nk.get_amplitude mb).1 = nk ∧
      (nk.get_wiper mb).1 = nk ∧ (nk.get_vin mb).1 = nk ∧
      (nk.get_vout mb).1 = nk ∧ (nk.get_pot_range mb).1 = nk ∧
      (nk.get_r_g_trim mb).1 = nk ∧ (nk.get_r_f_trim mb).1 = nk ∧
      (nk.get_mode mb).1 = { nk with mode := none } ∧
      (nk.get_startup_enabled mb).1 = { nk with startup_enabled := none }) := by
  have hresp : respVal bs = none := by
    unfold respVal
    rw [if_neg hshort]
  refine ⟨?_, ?_, ?_⟩
  · intro hu
    rw [send_command_read_eq mb d a bs rest hs hscript hd ha (Or.inr hu)]
    simp [hresp]
  · intro hu
    rw [send_command_read_raised mb d a bs rest hs hscript hd ha hshort hu]
  · intro hu
    have hwf : wfResp bs := Or.inr hu
    rw [get_frequency_eq nk mb bs rest hs hscript hdn hwf,
      get_amplitude_eq nk mb bs rest hs hscript hdn hwf,
      get_wiper_eq nk mb bs rest hs hscript hdn hwf,
      get_vin_eq nk mb bs rest hs hscript hdn hwf,
      get_vout_eq nk mb bs rest hs hscript hdn hwf,
      get_pot_range_eq nk mb bs rest hs hscript hdn hwf,
      get_r_g_trim_eq nk mb bs rest hs hscript hdn hwf,
      get_r_f_trim_eq nk mb bs rest hs hscript hdn hwf,
      get_mode_eq nk mb bs rest hs hscript hdn hwf,
      get_startup_enabled_eq nk mb bs rest hs hscript hdn hwf]
    simp [hresp, cacheUpd]

/-- Witness for C2 (amended) at a concrete short textual response: the
two-byte UTF-8 text "-1" yields `None` and a cached frequency of 5
survives, while a cached mode of 1 is overwritten with `None`. -/
theorem short_read_behavior_witness :
    ((⟨some true, [TEvent.ok [45, 49]], [], 0, 0, false, 0, []⟩ :
        Motherboard).send_command 0 22 0 true).2 = SendResult.pyNone ∧
    (NanoKicker.get_frequency
      ⟨0, some 1, some 5, none, none, none, none, none, none, none, none⟩
      ⟨some true, [TEvent.ok [45, 49]], [], 0, 0, false, 0, []⟩).1 =
      ⟨0, some 1, some 5, none, none, none, none, none, none, none, none⟩ ∧
    (NanoKicker.get_mode
      ⟨0, some 1, some 5, none, none, none, none, none, none, none, none⟩
      ⟨some true, [TEvent.ok [45, 49]], [], 0, 0, false, 0, []⟩).1 =
      ⟨0, none, some 5, none, none, none, none, none, none, none, none⟩ := by
  have h := short_read_behavior
    ⟨0, some 1, some 5, none, none, none, none, none, none, none, none⟩
    ⟨some true, [TEvent.ok [45, 49]], [], 0, 0, false, 0, []⟩
    0 22 [45, 49] [] rfl rfl (by decide) (by decide) (by decide) (by decide)
  refine ⟨h.1 (by decide), ?_, ?_⟩
  · exact (h.2.2 (by decide)).1
  · exact (h.2.2 (by decide)).2.2.2.2.2.2.2.2.1

/-- Counterexample to C2 as stated: a 1-byte response `FF` (fewer than 4
bytes, but not UTF-8 text) makes `send_command` raise a
`UnicodeDecodeError` instead of returning `None`; and on a benign empty
short read `get_mode` does not leave the cached mode untouched — a
previously cached mode 1 is overwritten with `None`. -/
theorem short_read_decode_and_mode_cex :
    ((⟨some true, [TEvent.ok [255]], [], 0, 0, false, 0, []⟩ :
        Motherboard).send_command 0 21 0 true).2 = SendResult.raised ∧
    SendResult.raised ≠ SendResult.pyNone ∧
    (NanoKicker.get_mode
      ⟨0, some 1, none, none, none, none, none, none, none, none, none⟩
      ⟨some true, [TEvent.ok []], [], 0, 0, false, 0, []⟩).1.mode = none ∧
    (none : Option Nat) ≠ some 1 := by
  exact ⟨by decide, by decide, by decide, by decide⟩

/-- Claim C10: for the eight guarded getters, a transaction yielding no
4-byte value returns the previously cached value (or `None` if never
set) with no error indication: the full call result is the unchanged
handle, the advanced link state, and the old cache; moreover (final two
conjuncts) the returned value of a failed read with a cached value
equals that of a fresh successful read of the same value, so the caller
cannot tell them apart. -/
theorem getter_stale_cache (nk : NanoKicker) (mb : Motherboard)
    (bs : List Nat) (rest : List TEvent)
    (hs : mb.serial = some true) (hscript : mb.script = TEvent.ok bs :: rest)
    (hd : nk.device_id < 256)
    (hshort : (bs.take 4).length ≠ 4) (hutf : isValidUtf8 (bs.take 4) = true) :
    nk.get_frequency mb =
      (nk, afterTx mb nk.device_id 22 0 rest, PyResult.ret nk.frequency) ∧
    nk.get_amplitude mb =
      (nk, afterTx mb nk.device_id 23 0 rest, PyResult.ret nk.amplitude) ∧
    nk.get_wiper mb =
      (nk, afterTx mb nk.device_id 24 0 rest, PyResult.ret nk.wiper) ∧
    nk.get_vin mb =
      (nk, afterTx mb nk.device_id 32 0 rest, PyResult.ret nk.vin) ∧
    nk.get_vout mb =
      (nk, afterTx mb nk.device_id 33 0 rest, PyResult.ret nk.vout) ∧
    nk.get_pot_range mb =
      (nk, afterTx mb nk.device_id 34 0 rest, PyResult.ret nk.pot_range) ∧
    nk.get_r_g_trim mb =
      (nk, afterTx mb nk.device_id 35 0 rest, PyResult.ret nk.r_g_trim) ∧
    nk.get_r_f_trim mb =
      (nk, afterTx mb nk.device_id 36 0 rest, PyResult.ret nk.r_f_trim) ∧
    (∀ n : Nat, n < 4294967296 →
      (NanoKicker.get_frequency { nk with frequency := some n } mb).2.2 =
        (NanoKicker.get_frequency nk
          { mb with script := TEvent.ok (toBEBytes n) :: rest }).2.2) ∧
    (∀ n : Nat, n < 4294967296 →
      (NanoKicker.get_amplitude
          { nk with amplitude := some (NanoKicker.int_to_float n) } mb).2.2 =
        (NanoKicker.get_amplitude nk
          { mb with script := TEvent.ok (toBEBytes n) :: rest }).2.2) := by
  have hwf : wfResp bs := Or.inr hutf
  have hresp : respVal bs = none := by
    unfold respVal
    rw [if_neg hshort]
  refine ⟨?_, ?_, ?_, ?_, ?_, ?_, ?_, ?_, ?_, ?_⟩
  · rw [get_frequency_eq nk mb bs rest hs hscript hd hwf]; simp [hresp, cacheUpd]
  · rw [get_amplitude_eq nk mb bs rest hs hscript hd hwf]; simp [hresp, cacheUpd]
  · rw [get_wiper_eq nk mb bs rest hs hscript hd hwf]; simp [hresp, cacheUpd]
  · rw [get_vin_eq nk mb bs rest hs hscript hd hwf]; simp [hresp, cacheUpd]
  · rw [get_vout_eq nk mb bs rest hs hscript hd hwf]; simp [hresp, cacheUpd]
  · rw [get_pot_range_eq nk mb bs rest hs hscript hd hwf]; simp [hresp, cacheUpd]
  · rw [get_r_g_trim_eq nk mb bs rest hs hscript hd hwf]; simp [hresp, cacheUpd]
  · rw [get_r_f_trim_eq nk mb bs rest hs hscript hd hwf]; simp [hresp, cacheUpd]
  · intro n hn
    rw [get_frequency_eq { nk with frequency := some n } mb bs rest hs hscript hd hwf,
      get_frequency_eq nk { mb with script := TEvent.ok (toBEBytes n) :: rest }
        (toBEBytes n) rest hs rfl hd (Or.inl (by simp [toBEBytes]))]
    simp [hresp, cacheUpd, respVal_toBEBytes n hn]
  · intro n hn
    rw [get_amplitude_eq
        { nk with amplitude := some (NanoKicker.int_to_float n) } mb bs rest hs hscript hd hwf,
      get_amplitude_eq nk { mb with script := TEvent.ok (toBEBytes n) :: rest }
        (toBEBytes n) rest hs rfl hd (Or.inl (by simp [toBEBytes]))]
    simp [hresp, cacheUpd, respVal_toBEBytes n hn]

/-- Witness for C10 at a concrete failed read: device 0 with cached
frequency 5, probed over a link whose response is empty (timeout),
returns the stale 5 and leaves the handle unchanged. -/
theorem getter_stale_cache_witness :
    (NanoKicker.get_frequency
      ⟨0, none, some 5, none, none, none, none, none, none, none, none⟩
      ⟨some true, [TEvent.ok []], [], 0, 0, false, 0, []⟩) =
      (⟨0, none, some 5, none, none, none, none, none, none, none, none⟩,
       afterTx ⟨some true, [TEvent.ok []], [], 0, 0, false, 0, []⟩ 0 22 0 [],
       PyResult.ret (some 5)) := by
  exact (getter_stale_cache
    ⟨0, none, some 5, none, none, none, none, none, none, none, none⟩
    ⟨some true, [TEvent.ok []], [], 0, 0, false, 0, []⟩
    [] [] rfl rfl (by decide) (by decide) (by decide)).1

/-- Claim C4 (amended): when the transport fails during the write or the
read of a transaction on a connected link with a registered disconnect
callback, the link drops the serial reference (Disconnected), closes the
transport exactly once, fires the callback exactly once, consumes
exactly one transport event (no retry), writes at most the one frame,
and the in-flight call returns `None` — the same plain "no value" result
as a short read or a successful setter, not a distinguishable `LinkLost`
error (see the counterexample). -/
theorem link_loss_transition (mb : Motherboard) (d a v : Nat) (rr : Bool)
    (ev : TEvent) (rest : List TEvent) (hs : mb.serial = some true)
    (hcb : mb.hasCb = true) (hscript : mb.script = ev :: rest)
    (hev : ev = TEvent.failAtWrite ∨ ev = TEvent.failAtRead)
    (hd : d < 256) (ha : a < 256) (hv : v < 4294967296) :
    (mb.send_command d a v rr).1.serial = none ∧
    (mb.send_command d a v rr).1.closeCount = mb.closeCount + 1 ∧
    (mb.send_command d a v rr).1.cbCount = mb.cbCount + 1 ∧
    (mb.send_command d a v rr).2 = SendResult.pyNone ∧
    (mb.send_command d a v rr).1.script = rest ∧
    ((mb.send_command d a v rr).1.written = mb.written ∨
      (mb.send_command d a v rr).1.written = mb.written ++ [frame6 d a v]) := by
  obtain ⟨s, sc, w, cc, cb, hc, sl, nks⟩ := mb
  replace hs : s = some true := hs
  replace hcb : hc = true := hcb
  replace hscript : sc = ev :: rest := hscript
  subst hs; subst hcb; subst hscript
  rcases hev with hev | hev <;> subst hev <;>
    simp [Motherboard.send_command, packBBI, hd, ha, hv, frame6]

/-- Witness for C4 (amended) at a concrete mid-read transport failure. -/
theorem link_loss_transition_witness :
    (((⟨some true, [TEvent.failAtRead], [], 0, 0, true, 0, []⟩ :
        Motherboard).send_command 3 2 1000 false).1.serial = none) ∧
    (((⟨some true, [TEvent.failAtRead], [], 0, 0, true, 0, []⟩ :
        Motherboard).send_command 3 2 1000 false).1.cbCount = 1) ∧
    (((⟨some true, [TEvent.failAtRead], [], 0, 0, true, 0, []⟩ :
        Motherboard).send_command 3 2 1000 false).2 = SendResult.pyNone) := by
  have h := link_loss_transition
    ⟨some true, [TEvent.failAtRead], [], 0, 0, true, 0, []⟩ 3 2 1000 false
    TEvent.failAtRead [] rfl rfl rfl (Or.inr rfl)
    (by decide) (by decide) (by decide)
  exact ⟨h.1, h.2.2.1, h.2.2.2.1⟩

/-- Counterexample to C4 as stated: the claim promises a `LinkLost` error
for the in-flight call, but the call's return value on a mid-transaction
transport failure is Python `None` — identical to the return value of a
successful setter transaction — so no error value distinguishable from a
normal result is returned. -/
theorem link_loss_returns_plain_none_cex :
    ((⟨some true, [TEvent.failAtRead], [], 0, 0, true, 0, []⟩ :
        Motherboard).send_command 0 2 1000 false).2 = SendResult.pyNone ∧
    ((⟨some true, [TEvent.ok [111, 107]], [], 0, 0, true, 0, []⟩ :
        Motherboard).send_command 0 2 1000 false).2 = SendResult.pyNone := by
  exact ⟨by decide, by decide⟩

/-- Claim C7 (amended): `disconnect` on a connected link transitions to
Disconnected but leaves the Registry intact — it does not clear the
Device Handles (see the counterexample); subsequent calls through a
previously obtained handle are refused without any bytes being written
and without a typed `NotConnected` error: `send_command` returns `None`
and leaves the state untouched, a getter returns the stale cache, and a
setter still caches its value locally while sending nothing. -/
theorem disconnect_behavior (mb : Motherboard) (hs : mb.serial = some true) :
    mb.disconnect.serial = none ∧
    mb.disconnect.nanokickers = mb.nanokickers ∧
    mb.disconnect.written = mb.written ∧
    (∀ (d a v : Nat) (rr : Bool),
      mb.disconnect.send_command d a v rr = (mb.disconnect, SendResult.pyNone)) ∧
    (∀ nk : NanoKicker, nk.get_frequency mb.disconnect =
      (nk, mb.disconnect, PyResult.ret nk.frequency)) ∧
    (∀ (nk : NanoKicker) (f : Nat), nk.set_frequency mb.disconnect f =
      ({ nk with frequency := some f }, mb.disconnect, SendResult.pyNone)) := by
  have hd : mb.disconnect = { mb with serial := none, closeCount := mb.closeCount + 1 } := by
    unfold Motherboard.disconnect
    rw [hs]
  have hnc : ∀ (d a v : Nat) (rr : Bool),
      mb.disconnect.send_command d a v rr = (mb.disconnect, SendResult.pyNone) := by
    intro d a v rr
    exact send_command_not_connected _ d a v rr (by rw [hd]; simp)
  refine ⟨by rw [hd], by rw [hd], by rw [hd], hnc, ?_, ?_⟩
  · intro nk
    unfold NanoKicker.get_frequency
    rw [hnc nk.device_id 22 0 true]
  · intro nk f
    unfold NanoKicker.set_frequency
    rw [hnc nk.device_id 2 f false]

/-- Witness for C7 (amended) at a concrete connected state with a
populated registry. -/
theorem disconnect_behavior_witness :
    ((⟨some true, [], [], 0, 0, false, 0,
        [(3, ⟨3, some 1, none, none, none, none, none, none, none, none, none⟩)]⟩ :
        Motherboard).disconnect.serial = none) ∧
    ((⟨some true, [], [], 0, 0, false, 0,
        [(3, ⟨3, some 1, none, none, none, none, none, none, none, none, none⟩)]⟩ :
        Motherboard).disconnect.nanokickers =
      [(3, ⟨3, some 1, none, none, none, none, none, none, none, none, none⟩)]) := by
  have h := disconnect_behavior
    ⟨some true, [], [], 0, 0, false, 0,
      [(3, ⟨3, some 1, none, none, none, none, none, none, none, none, none⟩)]⟩ rfl
  exact ⟨h.1, h.2.1⟩

/-- Counterexample to C7 as stated: disconnecting with a populated
Registry does not clear it — the Device Handle at slot 3 is still
registered afterwards. -/
theorem disconnect_keeps_registry_cex :
    ((⟨some true, [], [], 0, 0, false, 0,
        [(3, ⟨3, some 1, none, none, none, none, none, none, none, none, none⟩)]⟩ :
        Motherboard).disconnect.nanokickers =
      [(3, ⟨3, some 1, none, none, none, none, none, none, none, none, none⟩)]) ∧
    ([(3, (⟨3, some 1, none, none, none, none, none, none, none, none, none⟩ :
        NanoKicker))] : List (Nat × NanoKicker)) ≠ [] := by
  exact ⟨by decide, by decide⟩

/-- Claim C8 (amended): calling the scan while the link is Disconnected
returns `None` — not an empty Registry — and performs no probes: the
whole state, including any previously populated registry, the written
log and the sleep count, is left exactly as it was. -/
theorem scan_disconnected_noop (mb : Motherboard) (hs : mb.serial ≠ some true) :
    mb.scan_for_nanokickers = (mb, PyResult.ret none) := by
  unfold Motherboard.scan_for_nanokickers
  rcases h : mb.serial with _ | b
  · rfl
  · cases b
    · rfl
    · exact absurd h hs

/-- Witness for C8 (amended) at a concrete disconnected state. -/
theorem scan_disconnected_noop_witness :
    (⟨none, [], [], 0, 0, false, 0, []⟩ :
        Motherboard).scan_for_nanokickers =
      (⟨none, [], [], 0, 0, false, 0, []⟩, PyResult.ret none) :=
  scan_disconnected_noop ⟨none, [], [], 0, 0, false, 0, []⟩ (by decide)

/-- Counterexample to C8 as stated: scanning while disconnected with a
previously populated registry returns `None` rather than an empty
Registry, and the stale registry entry is still there. -/
theorem scan_disconnected_returns_none_cex :
    ((⟨none, [], [], 0, 0, false, 0,
        [(3, ⟨3, some 1, none, none, none, none, none, none, none, none, none⟩)]⟩ :
        Motherboard).scan_for_nanokickers =
      (⟨none, [], [], 0, 0, false, 0,
        [(3, ⟨3, some 1, none, none, none, none, none, none, none, none, none⟩)]⟩,
       PyResult.ret none)) ∧
    (PyResult.ret (none : Option (List (Nat × NanoKicker))) ≠
      PyResult.ret (some [])) := by
  exact ⟨by decide, by decide⟩

theorem stepRA_ret_eq {α : Type} {nk nk' : NanoKicker} {mb mb' : Motherboard}
    {v : α} {f : NanoKicker → Motherboard → NanoKicker × Motherboard × PyResult α}
    (h : f nk mb = (nk', mb', PyResult.ret v)) :
    stepRA (nk, mb, false) f = (nk', mb', false) := by
  simp [stepRA, h]

/-- Claim C9 (amended): `read_all_parameters` issues exactly the ten
getter transactions, in the source's fixed order mode, frequency,
amplitude, startup-enabled, vin, vout, pot-range, r_g-trim, r_f-trim,
wiper — wiper last, not fourth as the parameter table orders it (see
the counterexample); a getter whose transaction yields no 4-byte value
does not abort the remaining reads — all ten frames are always issued —
and such a getter leaves its field unchanged, except mode and
startup-enabled whose caches are overwritten with `None` (unknown). -/
theorem read_all_parameters_spec (nk : NanoKicker) (mb : Motherboard)
    (b1 b2 b3 b4 b5 b6 b7 b8 b9 b10 : List Nat) (rest : List TEvent)
    (hs : mb.serial = some true)
    (hscript : mb.script =
      TEvent.ok b1 :: TEvent.ok b2 :: TEvent.ok b3 :: TEvent.ok b4 :: TEvent.ok b5 ::
      TEvent.ok b6 :: TEvent.ok b7 :: TEvent.ok b8 :: TEvent.ok b9 :: TEvent.ok b10 :: rest)
    (hdev : nk.device_id < 256)
    (hw1 : wfResp b1) (hw2 : wfResp b2) (hw3 : wfResp b3) (hw4 : wfResp b4)
    (hw5 : wfResp b5) (hw6 : wfResp b6) (hw7 : wfResp b7) (hw8 : wfResp b8)
    (hw9 : wfResp b9) (hw10 : wfResp b10) :
    nk.read_all_parameters mb =
      ({ nk with
          mode := respVal b1,
          frequency := cacheUpd (respVal b2) id nk.frequency,
          amplitude := cacheUpd (respVal b3) NanoKicker.int_to_float nk.amplitude,
          startup_enabled := (respVal b4).map StartupVal.fromInt,
          vin := cacheUpd (respVal b5) NanoKicker.int_to_float nk.vin,
          vout := cacheUpd (respVal b6) NanoKicker.int_to_float nk.vout,
          pot_range := cacheUpd (respVal b7) NanoKicker.int_to_float nk.pot_range,
          r_g_trim := cacheUpd (respVal b8) NanoKicker.int_to_float nk.r_g_trim,
          r_f_trim := cacheUpd (respVal b9) NanoKicker.int_to_float nk.r_f_trim,
          wiper := cacheUpd (respVal b10) id nk.wiper },
       { mb with
          script := rest,
          written := mb.written ++
            [frame6 nk.device_id 21 0, frame6 nk.device_id 22 0,
             frame6 nk.device_id 23 0, frame6 nk.device_id 31 0,
             frame6 nk.device_id 32 0, frame6 nk.device_id 33 0,
             frame6 nk.device_id 34 0, frame6 nk.device_id 35 0,
             frame6 nk.device_id 36 0, frame6 nk.device_id 24 0] },
       false) := by
  obtain ⟨dev, mo, fr, am, su, vi, vo, po, rg, rf, wi⟩ := nk
  obtain ⟨s, sc, w, cc, cb, hc, sl, nks⟩ := mb
  replace hs : s = some true := hs
  replace hscript : sc =
    TEvent.ok b1 :: TEvent.ok b2 :: TEvent.ok b3 :: TEvent.ok b4 :: TEvent.ok b5 ::
    TEvent.ok b6 :: TEvent.ok b7 :: TEvent.ok b8 :: TEvent.ok b9 :: TEvent.ok b10 :: rest :=
    hscript
  replace hdev : dev < 256 := hdev
  subst hs; subst hscript
  have e1 : stepRA (⟨dev, mo, fr, am, su, vi, vo, po, rg, rf, wi⟩,
      ⟨some true, TEvent.ok b1 :: TEvent.ok b2 :: TEvent.ok b3 :: TEvent.ok b4 :: TEvent.ok b5 :: TEvent.ok b6 :: TEvent.ok b7 :: TEvent.ok b8 :: TEvent.ok b9 :: TEvent.ok b10 :: rest, w, cc, cb, hc, sl, nks⟩, false)
      NanoKicker.get_mode =
    (⟨dev, respVal b1, fr, am, su, vi, vo, po, rg, rf, wi⟩,
     ⟨some true, TEvent.ok b2 :: TEvent.ok b3 :: TEvent.ok b4 :: TEvent.ok b5 :: TEvent.ok b6 :: TEvent.ok b7 :: TEvent.ok b8 :: TEvent.ok b9 :: TEvent.ok b10 :: rest, w ++ [frame6 dev 21 0], cc, cb, hc, sl, nks⟩, false) := by
    rw [stepRA_ret_eq ((get_mode_eq ⟨dev, mo, fr, am, su, vi, vo, po, rg, rf, wi⟩
      ⟨some true, TEvent.ok b1 :: TEvent.ok b2 :: TEvent.ok b3 :: TEvent.ok b4 :: TEvent.ok b5 :: TEvent.ok b6 :: TEvent.ok b7 :: TEvent.ok b8 :: TEvent.ok b9 :: TEvent.ok b10 :: rest, w, cc, cb, hc, sl, nks⟩
      b1 _ rfl rfl hdev hw1))]
    simp [afterTx, frame6, List.append_assoc]
  have e2 : stepRA (⟨dev, respVal b1, fr, am, su, vi, vo, po, rg, rf, wi⟩,
      ⟨some true, TEvent.ok b2 :: TEvent.ok b3 :: TEvent.ok b4 :: TEvent.ok b5 :: TEvent.ok b6 :: TEvent.ok b7 :: TEvent.ok b8 :: TEvent.ok b9 :: TEvent.ok b10 :: rest, w ++ [frame6 dev 21 0], cc, cb, hc, sl, nks⟩, false)
      NanoKicker.get_frequency =
    (⟨dev, respVal b1, cacheUpd (respVal b2) id fr, am, su, vi, vo, po, rg, rf, wi⟩,
     ⟨some true, TEvent.ok b3 :: TEvent.ok b4 :: TEvent.ok b5 :: TEvent.ok b6 :: TEvent.ok b7 :: TEvent.ok b8 :: TEvent.ok b9 :: TEvent.ok b10 :: rest, w ++ [frame6 dev 21 0, frame6 dev 22 0], cc, cb, hc, sl, nks⟩, false) := by
    rw [stepRA_ret_eq ((get_frequency_eq ⟨dev, respVal b1, fr, am, su, vi, vo, po, rg, rf, wi⟩
      ⟨some true, TEvent.ok b2 :: TEvent.ok b3 :: TEvent.ok b4 :: TEvent.ok b5 :: TEvent.ok b6 :: TEvent.ok b7 :: TEvent.ok b8 :: TEvent.ok b9 :: TEvent.ok b10 :: rest, w ++ [frame6 dev 21 0], cc, cb, hc, sl, nks⟩
      b2 _ rfl rfl hdev hw2))]
    simp [afterTx, frame6, List.append_assoc]
  have e3 : stepRA (⟨dev, respVal b1, cacheUpd (respVal b2) id fr, am, su, vi, vo, po, rg, rf, wi⟩,
      ⟨some true, TEvent.ok b3 :: TEvent.ok b4 :: TEvent.ok b5 :: TEvent.ok b6 :: TEvent.ok b7 :: TEvent.ok b8 :: TEvent.ok b9 :: TEvent.ok b10 :: rest, w ++ [frame6 dev 21 0, frame6 dev 22 0], cc, cb, hc, sl, nks⟩, false)
      NanoKicker.get_amplitude =
    (⟨dev, respVal b1, cacheUpd (respVal b2) id fr, cacheUpd (respVal b3) NanoKicker.int_to_float am, su, vi, vo, po, rg, rf, wi⟩,
     ⟨some true, TEvent.ok b4 :: TEvent.ok b5 :: TEvent.ok b6 :: TEvent.ok b7 :: TEvent.ok b8 :: TEvent.ok b9 :: TEvent.ok b10 :: rest, w ++ [frame6 dev 21 0, frame6 dev 22 0, frame6 dev 23 0], cc, cb, hc, sl, nks⟩, false) := by
    rw [stepRA_ret_eq ((get_amplitude_eq ⟨dev, respVal b1, cacheUpd (respVal b2) id fr, am, su, vi, vo, po, rg, rf, wi⟩
      ⟨some true, TEvent.ok b3 :: TEvent.ok b4 :: TEvent.ok b5 :: TEvent.ok b6 :: TEvent.ok b7 :: TEvent.ok b8 :: TEvent.ok b9 :: TEvent.ok b10 :: rest, w ++ [frame6 dev 21 0, frame6 dev 22 0], cc, cb, hc, sl, nks⟩
      b3 _ rfl rfl hdev hw3))]
    simp [afterTx, frame6, List.append_assoc]
  have e4 : stepRA (⟨dev, respVal b1, cacheUpd (respVal b2) id fr, cacheUpd (respVal b3) NanoKicker.int_to_float am, su, vi, vo, po, rg, rf, wi⟩,
      ⟨some true, TEvent.ok b4 :: TEvent.ok b5 :: TEvent.ok b6 :: TEvent.ok b7 :: TEvent.ok b8 :: TEvent.ok b9 :: TEvent.ok b10 :: rest, w ++ [frame6 dev 21 0, frame6 dev 22 0, frame6 dev 23 0], cc, cb, hc, sl, nks⟩, false)
      NanoKicker.get_startup_enabled =
    (⟨dev, respVal b1, cacheUpd (respVal b2) id fr, cacheUpd (respVal b3) NanoKicker.int_to_float am, (respVal b4).map StartupVal.fromInt, vi, vo, po, rg, rf, wi⟩,
     ⟨some true, TEvent.ok b5 :: TEvent.ok b6 :: TEvent.ok b7 :: TEvent.ok b8 :: TEvent.ok b9 :: TEvent.ok b10 :: rest, w ++ [frame6 dev 21 0, frame6 dev 22 0, frame6 dev 23 0, frame6 dev 31 0], cc, cb, hc, sl, nks⟩, false) := by
    rw [stepRA_ret_eq ((get_startup_enabled_eq ⟨dev, respVal b1, cacheUpd (respVal b2) id fr, cacheUpd (respVal b3) NanoKicker.int_to_float am, su, vi, vo, po, rg, rf, wi⟩
      ⟨some true, TEvent.ok b4 :: TEvent.ok b5 :: TEvent.ok b6 :: TEvent.ok b7 :: TEvent.ok b8 :: TEvent.ok b9 :: TEvent.ok b10 :: rest, w ++ [frame6 dev 21 0, frame6 dev 22 0, frame6 dev 23 0], cc, cb, hc, sl, nks⟩
      b4 _ rfl rfl hdev hw4))]
    simp [afterTx, frame6, List.append_assoc]
  have e5 : stepRA (⟨dev, respVal b1, cacheUpd (respVal b2) id fr, cacheUpd (respVal b3) NanoKicker.int_to_float am, (respVal b4).map StartupVal.fromInt, vi, vo, po, rg, rf, wi⟩,
      ⟨some true, TEvent.ok b5 :: TEvent.ok b6 :: TEvent.ok b7 :: TEvent.ok b8 :: TEvent.ok b9 :: TEvent.ok b10 :: rest, w ++ [frame6 dev 21 0, frame6 dev 22 0, frame6 dev 23 0, frame6 dev 31 0], cc, cb, hc, sl, nks⟩, false)
      NanoKicker.get_vin =
    (⟨dev, respVal b1, cacheUpd (respVal b2) id fr, cacheUpd (respVal b3) NanoKicker.int_to_float am, (respVal b4).map StartupVal.fromInt, cacheUpd (respVal b5) NanoKicker.int_to_float vi, vo, po, rg, rf, wi⟩,
     ⟨some true, TEvent.ok b6 :: TEvent.ok b7 :: TEvent.ok b8 :: TEvent.ok b9 :: TEvent.ok b10 :: rest, w ++ [frame6 dev 21 0, frame6 dev 22 0, frame6 dev 23 0, frame6 dev 31 0, frame6 dev 32 0], cc, cb, hc, sl, nks⟩, false) := by
    rw [stepRA_ret_eq ((get_vin_eq ⟨dev, respVal b1, cacheUpd (respVal b2) id fr, cacheUpd (respVal b3) NanoKicker.int_to_float am, (respVal b4).map StartupVal.fromInt, vi, vo, po, rg, rf, wi⟩
      ⟨some true, TEvent.ok b5 :: TEvent.ok b6 :: TEvent.ok b7 :: TEvent.ok b8 :: TEvent.ok b9 :: TEvent.ok b10 :: rest, w ++ [frame6 dev 21 0, frame6 dev 22 0, frame6 dev 23 0, frame6 dev 31 0], cc, cb, hc, sl, nks⟩
      b5 _ rfl rfl hdev hw5))]
    simp [afterTx, frame6, List.append_assoc]
  have e6 : stepRA (⟨dev, respVal b1, cacheUpd (respVal b2) id fr, cacheUpd (respVal b3) NanoKicker.int_to_float am, (respVal b4).map StartupVal.fromInt, cacheUpd (respVal b5) NanoKicker.int_to_float vi, vo, po, rg, rf, wi⟩,
      ⟨some true, TEvent.ok b6 :: TEvent.ok b7 :: TEvent.ok b8 :: TEvent.ok b9 :: TEvent.ok b10 :: rest, w ++ [frame6 dev 21 0, frame6 dev 22 0, frame6 dev 23 0, frame6 dev 31 0, frame6 dev 32 0], cc, cb, hc, sl, nks⟩, false)
      NanoKicker.get_vout =
    (⟨dev, respVal b1, cacheUpd (respVal b2) id fr, cacheUpd (respVal b3) NanoKicker.int_to_float am, (respVal b4).map StartupVal.fromInt, cacheUpd (respVal b5) NanoKicker.int_to_float vi, cacheUpd (respVal b6) NanoKicker.int_to_float vo, po, rg, rf, wi⟩,
     ⟨some true, TEvent.ok b7 :: TEvent.ok b8 :: TEvent.ok b9 :: TEvent.ok b10 :: rest, w ++ [frame6 dev 21 0, frame6 dev 22 0, frame6 dev 23 0, frame6 dev 31 0, frame6 dev 32 0, frame6 dev 33 0], cc, cb, hc, sl, nks⟩, false) := by
    rw [stepRA_ret_eq ((get_vout_eq ⟨dev, respVal b1, cacheUpd (respVal b2) id fr, cacheUpd (respVal b3) NanoKicker.int_to_float am, (respVal b4).map StartupVal.fromInt, cacheUpd (respVal b5) NanoKicker.int_to_float vi, vo, po, rg, rf, wi⟩
      ⟨some true, TEvent.ok b6 :: TEvent.ok b7 :: TEvent.ok b8 :: TEvent.ok b9 :: TEvent.ok b10 :: rest, w ++ [frame6 dev 21 0, frame6 dev 22 0, frame6 dev 23 0, frame6 dev 31 0, frame6 dev 32 0], cc, cb, hc, sl, nks⟩
      b6 _ rfl rfl hdev hw6))]
    simp [afterTx, frame6, List.append_assoc]
  have e7 : stepRA (⟨dev, respVal b1, cacheUpd (respVal b2) id fr, cacheUpd (respVal b3) NanoKicker.int_to_float am, (respVal b4).map StartupVal.fromInt, cacheUpd (respVal b5) NanoKicker.int_to_float vi, cacheUpd (respVal b6) NanoKicker.int_to_float vo, po, rg, rf, wi⟩,
      ⟨some true, TEvent.ok b7 :: TEvent.ok b8 :: TEvent.ok b9 :: TEvent.ok b10 :: rest, w ++ [frame6 dev 21 0, frame6 dev 22 0, frame6 dev 23 0, frame6 dev 31 0, frame6 dev 32 0, frame6 dev 33 0], cc, cb, hc, sl, nks⟩, false)
      NanoKicker.get_pot_range =
    (⟨dev, respVal b1, cacheUpd (respVal b2) id fr, cacheUpd (respVal b3) NanoKicker.int_to_float am, (respVal b4).map StartupVal.fromInt, cacheUpd (respVal b5) NanoKicker.int_to_float vi, cacheUpd (respVal b6) NanoKicker.int_to_float vo, cacheUpd (respVal b7) NanoKicker.int_to_float po, rg, rf, wi⟩,
     ⟨some true, TEvent.ok b8 :: TEvent.ok b9 :: TEvent.ok b10 :: rest, w ++ [frame6 dev 21 0, frame6 dev 22 0, frame6 dev 23 0, frame6 dev 31 0, frame6 dev 32 0, frame6 dev 33 0, frame6 dev 34 0], cc, cb, hc, sl, nks⟩, false) := by
    rw [stepRA_ret_eq ((get_pot_range_eq ⟨dev, respVal b1, cacheUpd (respVal b2) id fr, cacheUpd (respVal b3) NanoKicker.int_to_float am, (respVal b4).map StartupVal.fromInt, cacheUpd (respVal b5) NanoKicker.int_to_float vi, cacheUpd (respVal b6) NanoKicker.int_to_float vo, po, rg, rf, wi⟩
      ⟨some true, TEvent.ok b7 :: TEvent.ok b8 :: TEvent.ok b9 :: TEvent.ok b10 :: rest, w ++ [frame6 dev 21 0, frame6 dev 22 0, frame6 dev 23 0, frame6 dev 31 0, frame6 dev 32 0, frame6 dev 33 0], cc, cb, hc, sl, nks⟩
      b7 _ rfl rfl hdev hw7))]
    simp [afterTx, frame6, List.append_assoc]
  have e8 : stepRA (⟨dev, respVal b1, cacheUpd (respVal b2) id fr, cacheUpd (respVal b3) NanoKicker.int_to_float am, (respVal b4).map StartupVal.fromInt, cacheUpd (respVal b5) NanoKicker.int_to_float vi, cacheUpd (respVal b6) NanoKicker.int_to_float vo, cacheUpd (respVal b7) NanoKicker.int_to_float po, rg, rf, wi⟩,
      ⟨some true, TEvent.ok b8 :: TEvent.ok b9 :: TEvent.ok b10 :: rest, w ++ [frame6 dev 21 0, frame6 dev 22 0, frame6 dev 23 0, frame6 dev 31 0, frame6 dev 32 0, frame6 dev 33 0, frame6 dev 34 0], cc, cb, hc, sl, nks⟩, false)
      NanoKicker.get_r_g_trim =
    (⟨dev, respVal b1, cacheUpd (respVal b2) id fr, cacheUpd (respVal b3) NanoKicker.int_to_float am, (respVal b4).map StartupVal.fromInt, cacheUpd (respVal b5) NanoKicker.int_to_float vi, cacheUpd (respVal b6) NanoKicker.int_to_float vo, cacheUpd (respVal b7) NanoKicker.int_to_float po, cacheUpd (respVal b8) NanoKicker.int_to_float rg, rf, wi⟩,
     ⟨some true, TEvent.ok b9 :: TEvent.ok b10 :: rest, w ++ [frame6 dev 21 0, frame6 dev 22 0, frame6 dev 23 0, frame6 dev 31 0, frame6 dev 32 0, frame6 dev 33 0, frame6 dev 34 0, frame6 dev 35 0], cc, cb, hc, sl, nks⟩, false) := by
    rw [stepRA_ret_eq ((get_r_g_trim_eq ⟨dev, respVal b1, cacheUpd (respVal b2) id fr, cacheUpd (respVal b3) NanoKicker.int_to_float am, (respVal b4).map StartupVal.fromInt, cacheUpd (respVal b5) NanoKicker.int_to_float vi, cacheUpd (respVal b6) NanoKicker.int_to_float vo, cacheUpd (respVal b7) NanoKicker.int_to_float po, rg, rf, wi⟩
      ⟨some true, TEvent.ok b8 :: TEvent.ok b9 :: TEvent.ok b10 :: rest, w ++ [frame6 dev 21 0, frame6 dev 22 0, frame6 dev 23 0, frame6 dev 31 0, frame6 dev 32 0, frame6 dev 33 0, frame6 dev 34 0], cc, cb, hc, sl, nks⟩
      b8 _ rfl rfl hdev hw8))]
    simp [afterTx, frame6, List.append_assoc]
  have e9 : stepRA (⟨dev, respVal b1, cacheUpd (respVal b2) id fr, cacheUpd (respVal b3) NanoKicker.int_to_float am, (respVal b4).map StartupVal.fromInt, cacheUpd (respVal b5) NanoKicker.int_to_float vi, cacheUpd (respVal b6) NanoKicker.int_to_float vo, cacheUpd (respVal b7) NanoKicker.int_to_float po, cacheUpd (respVal b8) NanoKicker.int_to_float rg, rf, wi⟩,
      ⟨some true, TEvent.ok b9 :: TEvent.ok b10 :: rest, w ++ [frame6 dev 21 0, frame6 dev 22 0, frame6 dev 23 0, frame6 dev 31 0, frame6 dev 32 0, frame6 dev 33 0, frame6 dev 34 0, frame6 dev 35 0], cc, cb, hc, sl, nks⟩, false)
      NanoKicker.get_r_f_trim =
    (⟨dev, respVal b1, cacheUpd (respVal b2) id fr, cacheUpd (respVal b3) NanoKicker.int_to_float am, (respVal b4).map StartupVal.fromInt, cacheUpd (respVal b5) NanoKicker.int_to_float vi, cacheUpd (respVal b6) NanoKicker.int_to_float vo, cacheUpd (respVal b7) NanoKicker.int_to_float po, cacheUpd (respVal b8) NanoKicker.int_to_float rg, cacheUpd (respVal b9) NanoKicker.int_to_float rf, wi⟩,
     ⟨some true, TEvent.ok b10 :: rest, w ++ [frame6 dev 21 0, frame6 dev 22 0, frame6 dev 23 0, frame6 dev 31 0, frame6 dev 32 0, frame6 dev 33 0, frame6 dev 34 0, frame6 dev 35 0, frame6 dev 36 0], cc, cb, hc, sl, nks⟩, false) := by
    rw [stepRA_ret_eq ((get_r_f_trim_eq ⟨dev, respVal b1, cacheUpd (respVal b2) id fr, cacheUpd (respVal b3) NanoKicker.int_to_float am, (respVal b4).map StartupVal.fromInt, cacheUpd (respVal b5) NanoKicker.int_to_float vi, cacheUpd (respVal b6) NanoKicker.int_to_float vo, cacheUpd (respVal b7) NanoKicker.int_to_float po, cacheUpd (respVal b8) NanoKicker.int_to_float rg, rf, wi⟩
      ⟨some true, TEvent.ok b9 :: TEvent.ok b10 :: rest, w ++ [frame6 dev 21 0, frame6 dev 22 0, frame6 dev 23 0, frame6 dev 31 0, frame6 dev 32 0, frame6 dev 33 0, frame6 dev 34 0, frame6 dev 35 0], cc, cb, hc, sl, nks⟩
      b9 _ rfl rfl hdev hw9))]
    simp [afterTx, frame6, List.append_assoc]
  have e10 : stepRA (⟨dev, respVal b1, cacheUpd (respVal b2) id fr, cacheUpd (respVal b3) NanoKicker.int_to_float am, (respVal b4).map StartupVal.fromInt, cacheUpd (respVal b5) NanoKicker.int_to_float vi, cacheUpd (respVal b6) NanoKicker.int_to_float vo, cacheUpd (respVal b7) NanoKicker.int_to_float po, cacheUpd (respVal b8) NanoKicker.int_to_float rg, cacheUpd (respVal b9) NanoKicker.int_to_float rf, wi⟩,
      ⟨some true, TEvent.ok b10 :: rest, w ++ [frame6 dev 21 0, frame6 dev 22 0, frame6 dev 23 0, frame6 dev 31 0, frame6 dev 32 0, frame6 dev 33 0, frame6 dev 34 0, frame6 dev 35 0, frame6 dev 36 0], cc, cb, hc, sl, nks⟩, false)
      NanoKicker.get_wiper =
    (⟨dev, respVal b1, cacheUpd (respVal b2) id fr, cacheUpd (respVal b3) NanoKicker.int_to_float am, (respVal b4).map StartupVal.fromInt, cacheUpd (respVal b5) NanoKicker.int_to_float vi, cacheUpd (respVal b6) NanoKicker.int_to_float vo, cacheUpd (respVal b7) NanoKicker.int_to_float po, cacheUpd (respVal b8) NanoKicker.int_to_float rg, cacheUpd (respVal b9) NanoKicker.int_to_float rf, cacheUpd (respVal b10) id wi⟩,
     ⟨some true, rest, w ++ [frame6 dev 21 0, frame6 dev 22 0, frame6 dev 23 0, frame6 dev 31 0, frame6 dev 32 0, frame6 dev 33 0, frame6 dev 34 0, frame6 dev 35 0, frame6 dev 36 0, frame6 dev 24 0], cc, cb, hc, sl, nks⟩, false) := by
    rw [stepRA_ret_eq ((get_wiper_eq ⟨dev, respVal b1, cacheUpd (respVal b2) id fr, cacheUpd (respVal b3) NanoKicker.int_to_float am, (respVal b4).map StartupVal.fromInt, cacheUpd (respVal b5) NanoKicker.int_to_float vi, cacheUpd (respVal b6) NanoKicker.int_to_float vo, cacheUpd (respVal b7) NanoKicker.int_to_float po, cacheUpd (respVal b8) NanoKicker.int_to_float rg, cacheUpd (respVal b9) NanoKicker.int_to_float rf, wi⟩
      ⟨some true, TEvent.ok b10 :: rest, w ++ [frame6 dev 21 0, frame6 dev 22 0, frame6 dev 23 0, frame6 dev 31 0, frame6 dev 32 0, frame6 dev 33 0, frame6 dev 34 0, frame6 dev 35 0, frame6 dev 36 0], cc, cb, hc, sl, nks⟩
      b10 _ rfl rfl hdev hw10))]
    simp [afterTx, frame6, List.append_assoc]
  unfold NanoKicker.read_all_parameters
  rw [e1, e2, e3, e4, e5, e6, e7, e8, e9, e10]

/-- Witness for C9 (amended): device 0 with a cached mode of 7; slot 2's
read returns 5, every other read is an empty short read.  All ten frames
go out in the source's order, frequency is updated to 5, the other
guarded caches stay unchanged, and the clobbering mode getter resets its
cache to `None`. -/
theorem read_all_parameters_spec_witness :
    NanoKicker.read_all_parameters
      ⟨0, some 7, none, none, none, none, none, none, none, none, none⟩
      ⟨some true,
        [TEvent.ok [], TEvent.ok [0, 0, 0, 5], TEvent.ok [], TEvent.ok [],
         TEvent.ok [], TEvent.ok [], TEvent.ok [], TEvent.ok [], TEvent.ok [],
         TEvent.ok []], [], 0, 0, false, 0, []⟩ =
      (⟨0, none, some 5, none, none, none, none, none, none, none, none⟩,
       ⟨some true, [],
        [[0, 21, 0, 0, 0, 0], [0, 22, 0, 0, 0, 0], [0, 23, 0, 0, 0, 0],
         [0, 31, 0, 0, 0, 0], [0, 32, 0, 0, 0, 0], [0, 33, 0, 0, 0, 0],
         [0, 34, 0, 0, 0, 0], [0, 35, 0, 0, 0, 0], [0, 36, 0, 0, 0, 0],
         [0, 24, 0, 0, 0, 0]], 0, 0, false, 0, []⟩,
       false) := by
  have h := read_all_parameters_spec
    ⟨0, some 7, none, none, none, none, none, none, none, none, none⟩
    ⟨some true,
      [TEvent.ok [], TEvent.ok [0, 0, 0, 5], TEvent.ok [], TEvent.ok [],
       TEvent.ok [], TEvent.ok [], TEvent.ok [], TEvent.ok [], TEvent.ok [],
       TEvent.ok []], [], 0, 0, false, 0, []⟩
    [] [0, 0, 0, 5] [] [] [] [] [] [] [] [] [] rfl rfl (by decide)
    (by decide) (by decide) (by decide) (by decide) (by decide) (by decide)
    (by decide) (by decide) (by decide) (by decide)
  exact h.trans (by decide)

/-- Counterexample to C9 as stated: the claim's getter order puts wiper
fourth (action sequence 21, 22, 23, 24, 31, ..., 36), but the code reads
wiper last — the emitted action-code sequence is
21, 22, 23, 31, 32, 33, 34, 35, 36, 24. -/
theorem read_all_order_cex :
    ((NanoKicker.read_all_parameters
      ⟨0, none, none, none, none, none, none, none, none, none, none⟩
      ⟨some true,
        [TEvent.ok [], TEvent.ok [], TEvent.ok [], TEvent.ok [], TEvent.ok [],
         TEvent.ok [], TEvent.ok [], TEvent.ok [], TEvent.ok [], TEvent.ok []],
        [], 0, 0, false, 0, []⟩).2.1.written.map
          (fun f => (f.drop 1).headD 0) =
      [21, 22, 23, 31, 32, 33, 34, 35, 36, 24]) ∧
    ([21, 22, 23, 31, 32, 33, 34, 35, 36, 24] : List Nat) ≠
      [21, 22, 23, 24, 31, 32, 33, 34, 35, 36] := by
  exact ⟨by decide, by decide⟩

/-- Registry contents the scan classification produces from per-slot
responses `bss`, slots numbered from `i`: exactly the slots whose
response carries a full 4-byte value different from the sentinel, each
seeded with that value as its cached mode. -/
def scanExpected (i : Nat) : List (List Nat) → List (Nat × NanoKicker)
  | [] => []
  | bs :: rest =>
    match respVal bs with
    | some n =>
      if n = ERROR_RESPONSE_MINUS_2 then scanExpected (i + 1) rest
      else (i, { device_id := i, mode := some n }) :: scanExpected (i + 1) rest
    | none => scanExpected (i + 1) rest

/-- The get-mode probe frames a scan of `count` slots starting at slot
`i` emits, one per slot in increasing slot order. -/
def scanFrames (i : Nat) : Nat → List (List Nat)
  | 0 => []
  | count + 1 => frame6 i 21 0 :: scanFrames (i + 1) count

theorem scanLoop_spec (bss : List (List Nat)) :
    ∀ (i : Nat) (mb : Motherboard) (rest : List TEvent),
    mb.serial = some true →
    mb.script = bss.map TEvent.ok ++ rest →
    (∀ bs ∈ bss, wfResp bs) →
    i + bss.length ≤ 256 →
    scanLoop mb i bss.length =
      ({ mb with
          script := rest,
          written := mb.written ++ scanFrames i bss.length,
          sleeps := mb.sleeps + bss.length,
          nanokickers := mb.nanokickers ++ scanExpected i bss }, false) := by
  induction bss with
  | nil =>
    intro i mb rest hs hscript hwf hle
    obtain ⟨s, sc, w, cc, cb, hc, sl, nks⟩ := mb
    replace hscript : sc = rest := hscript
    subst hscript
    simp [scanLoop, scanFrames, scanExpected]
  | cons bs t ih =>
    intro i mb rest hs hscript hwf hle
    have hd : i < 256 := by
      simp only [List.length_cons] at hle; omega
    have hwfbs : wfResp bs := hwf bs (by simp)
    have hsend := send_command_read_eq mb i 21 bs (t.map TEvent.ok ++ rest) hs
      (by simpa using hscript) hd (by omega) hwfbs
    obtain ⟨s, sc, w, cc, cb, hc, sl, nks⟩ := mb
    replace hs : s = some true := hs
    subst hs
    simp only [List.length_cons, scanLoop]
    rw [hsend]
    rcases hr : respVal bs with _ | n
    · simp only [hr]
      refine (ih (i + 1) _ rest ?_ ?_ ?_ ?_).trans ?_
      · rfl
      · rfl
      · exact fun b hb => hwf b (List.mem_cons_of_mem bs hb)
      · simp only [List.length_cons] at hle; omega
      · simp [afterTx, frame6, scanFrames, scanExpected, hr]
        omega
    · simp only [hr]
      by_cases hn : n = ERROR_RESPONSE_MINUS_2
      · rw [if_pos hn]
        refine (ih (i + 1) _ rest ?_ ?_ ?_ ?_).trans ?_
        · rfl
        · rfl
        · exact fun b hb => hwf b (List.mem_cons_of_mem bs hb)
        · simp only [List.length_cons] at hle; omega
        · simp [afterTx, frame6, scanFrames, scanExpected, hr, hn]
          omega
      · rw [if_neg hn]
        refine (ih (i + 1) _ rest ?_ ?_ ?_ ?_).trans ?_
        · rfl
        · rfl
        · exact fun b hb => hwf b (List.mem_cons_of_mem bs hb)
        · simp only [List.length_cons] at hle; omega
        · simp [afterTx, frame6, scanFrames, scanExpected, hr, hn]
          omega

/-- Claim C3: a scan started while connected clears the Registry first,
probes all 20 slots with get-mode reads, and — for any fixed sequence of
protocol responses, one per slot — produces exactly the slots whose
probe returned a full 4-byte value different from the sentinel
(4278190079), each Device Handle seeded with the probe value as its
cached mode; no entry of a prior scan survives (the result does not
depend on the registry the scan started with). -/
theorem scan_discovery_spec (mb : Motherboard) (bss : List (List Nat))
    (rest : List TEvent) (hs : mb.serial = some true)
    (hscript : mb.script = bss.map TEvent.ok ++ rest)
    (hwf : ∀ bs ∈ bss, wfResp bs) (hlen : bss.length = 20) :
    mb.scan_for_nanokickers =
      ({ mb with
          script := rest,
          written := mb.written ++ scanFrames 0 20,
          sleeps := mb.sleeps + 20,
          nanokickers := scanExpected 0 bss },
       PyResult.ret (some (scanExpected 0 bss))) := by
  unfold Motherboard.scan_for_nanokickers
  rw [hs, show MAX_DEVICES = bss.length by simp [MAX_DEVICES, hlen]]
  have h := scanLoop_spec bss 0 { mb with serial := some true, nanokickers := [] }
    rest rfl hscript hwf (by omega)
  simp only [h]
  obtain ⟨s, sc, w, cc, cb, hc, sl, nks⟩ := mb
  simp [hlen]

/-- Witness for C3, at the spec's discovery example: slot 0 answers the
sentinel, slot 1 the value 0, slot 2 a short text line, slot 3 the value
2, the remaining slots time out; a stale registry entry at slot 7 from a
prior scan is present when the scan starts.  The result is exactly slots
1 and 3, seeded with modes 0 and 2; the stale entry is gone. -/
theorem scan_discovery_spec_witness :
    ((⟨some true,
        List.map TEvent.ok
          [[254, 255, 255, 255], [0, 0, 0, 0], [45, 49], [0, 0, 0, 2],
           [], [], [], [], [], [], [], [], [], [], [], [], [], [], [], []],
        [], 0, 0, false, 0,
        [(7, ⟨7, some 1, none, none, none, none, none, none, none, none, none⟩)]⟩ :
        Motherboard).scan_for_nanokickers.2 =
      PyResult.ret (some
        [(1, ⟨1, some 0, none, none, none, none, none, none, none, none, none⟩),
         (3, ⟨3, some 2, none, none, none, none, none, none, none, none, none⟩)])) ∧
    ((⟨some true,
        List.map TEvent.ok
          [[254, 255, 255, 255], [0, 0, 0, 0], [45, 49], [0, 0, 0, 2],
           [], [], [], [], [], [], [], [], [], [], [], [], [], [], [], []],
        [], 0, 0, false, 0,
        [(7, ⟨7, some 1, none, none, none, none, none, none, none, none, none⟩)]⟩ :
        Motherboard).scan_for_nanokickers.1.nanokickers =
      [(1, ⟨1, some 0, none, none, none, none, none, none, none, none, none⟩),
       (3, ⟨3, some 2, none, none, none, none, none, none, none, none, none⟩)]) := by
  have h := scan_discovery_spec
    ⟨some true,
      List.map TEvent.ok
        [[254, 255, 255, 255], [0, 0, 0, 0], [45, 49], [0, 0, 0, 2],
         [], [], [], [], [], [], [], [], [], [], [], [], [], [], [], []],
      [], 0, 0, false, 0,
      [(7, ⟨7, some 1, none, none, none, none, none, none, none, none, none⟩)]⟩
    [[254, 255, 255, 255], [0, 0, 0, 0], [45, 49], [0, 0, 0, 2],
     [], [], [], [], [], [], [], [], [], [], [], [], [], [], [], []]
    [] rfl rfl (by decide) rfl
  rw [h]
  exact ⟨by decide, by decide⟩

end UnKicker
